import Mathlib

/-!
Verification of the learning-progression engine of the education backend:
the Leitner box scheduler (app/services/leitner_service.py), the answer
evaluator and session lifecycle (app/services/session_service.py), and the
prerequisite cycle checker (app/services/quiz_service.py).

Shallow embedding conventions:
- ORM rows become Lean structures; uuid ids are plain strings; datetimes
  are naturals (seconds).
- Database tables become lists of rows inside an explicit state record;
  SQLAlchemy scalar_one_or_none lookups become List.find? (primary keys
  and the unique tuples the service relies on are assumed unique, as the
  schema intends).
- Python exceptions become Except / explicit error sums; functions that
  first mutate and then raise return the mutated state next to the error.
- random.sample / random.shuffle are modeled by an abstract rng stream:
  any function from (call site, draw step) to naturals; every concrete
  Mersenne-Twister execution is one such function.
-/

namespace Proto

/-- A row of the leitner_boxes table (app/models/leitner.py, LeitnerBox). -/
structure LeitnerBox where
  classroom_id : String
  student_id : String
  question_id : String
  box_level : Nat
  added_at : Nat
  last_reviewed_at : Option Nat
deriving DecidableEq, Repr

/-- BOX_PROBABILITIES of leitner_service.py with the weights 0.50, 0.25,
0.15, 0.07, 0.03 written in hundredths. -/
def BOX_PROBABILITIES : List (Nat × Nat) := [(1, 50), (2, 25), (3, 15), (4, 7), (5, 3)]

/-- VALID_QUESTION_COUNTS of leitner_service.py. -/
def VALID_QUESTION_COUNTS : List Nat := [5, 10, 15, 20]

/-- The per-level counter dict over the fixed keys 1..5 that
_select_questions_by_probability manipulates (available_counts and
target_counts). -/
structure BoxCounts where
  b1 : Nat
  b2 : Nat
  b3 : Nat
  b4 : Nat
  b5 : Nat
deriving DecidableEq, Repr

def BoxCounts.total (c : BoxCounts) : Nat := c.b1 + c.b2 + c.b3 + c.b4 + c.b5

/-- The shortfall backfill loop of _select_questions_by_probability:
walk levels 1..5 in ascending order, raising each target up to that
level's availability until the remainder is exhausted.  The loop over the
literal list [1, 2, 3, 4, 5] is unrolled; the early break at remaining = 0
is behavior-equivalent because later additions are min remaining _ = 0. -/
def redistribute (avail tgt : BoxCounts) (remaining : Nat) : BoxCounts :=
  let a1 := min remaining (avail.b1 - tgt.b1)
  let r1 := remaining - a1
  let a2 := min r1 (avail.b2 - tgt.b2)
  let r2 := r1 - a2
  let a3 := min r2 (avail.b3 - tgt.b3)
  let r3 := r2 - a3
  let a4 := min r3 (avail.b4 - tgt.b4)
  let r4 := r3 - a4
  let a5 := min r4 (avail.b5 - tgt.b5)
  ⟨tgt.b1 + a1, tgt.b2 + a2, tgt.b3 + a3, tgt.b4 + a4, tgt.b5 + a5⟩

/-- Model of random.sample(xs, k): repeatedly pick a remaining element at
an rng-chosen position, k times (k is always clamped to the population
size at the call sites, as the service does with min).  The r argument
abstracts the Mersenne-Twister stream as an arbitrary function from draw
step to natural. -/
def drawSample {α : Type} (r : Nat → Nat) : Nat → List α → Nat → List α
  | _, _, 0 => []
  | _, [], _ + 1 => []
  | step, x :: rest, k + 1 =>
    let i := r step % (x :: rest).length
    (x :: rest).getD i x :: drawSample r (step + 1) ((x :: rest).eraseIdx i) k

/-- Model of random.shuffle: a full draw without replacement, which
realizes exactly the permutations of the input. -/
def shuffleModel {α : Type} (r : Nat → Nat) (xs : List α) : List α :=
  drawSample r 0 xs xs.length

/-- The boxes_by_level grouping built in start_leitner_session: the dict
with keys 1..5 holding each level's rows in table order.  (Rows keep the
key order of the list; a box_level outside 1..5 would be a KeyError in
the source, and the Box Entry invariant keeps levels in 1..5.) -/
def boxesByLevel (boxes : List LeitnerBox) (level : Nat) : List LeitnerBox :=
  boxes.filter (fun b => b.box_level == level)

/-- The available_counts dict of _select_questions_by_probability:
per-level population sizes. -/
def availCounts (boxes_by_level : Nat → List LeitnerBox) : BoxCounts :=
  ⟨(boxes_by_level 1).length, (boxes_by_level 2).length, (boxes_by_level 3).length,
    (boxes_by_level 4).length, (boxes_by_level 5).length⟩

/-- The target_counts dict after step 1: target = int(count * prob) capped
at availability.  Python float truncation int(count * prob) agrees with
the exact floor count * w / 100 at every weight for all counts this
service accepts (5, 10, 15, 20), and the embedding uses the exact floor. -/
def initialTargets (boxes_by_level : Nat → List LeitnerBox) (count : Nat) : BoxCounts :=
  ⟨min (count * 50 / 100) (boxes_by_level 1).length,
    min (count * 25 / 100) (boxes_by_level 2).length,
    min (count * 15 / 100) (boxes_by_level 3).length,
    min (count * 7 / 100) (boxes_by_level 4).length,
    min (count * 3 / 100) (boxes_by_level 5).length⟩

/-- The target_counts dict after the step-2 shortfall redistribution: if
the capped targets sum below count, backfill levels 1..5 in ascending
order. -/
def targetCounts (boxes_by_level : Nat → List LeitnerBox) (count : Nat) : BoxCounts :=
  if (initialTargets boxes_by_level count).total < count
  then redistribute (availCounts boxes_by_level) (initialTargets boxes_by_level count)
    (count - (initialTargets boxes_by_level count).total)
  else initialTargets boxes_by_level count

/-- The selected list before the final shuffle: per level in ascending
order, random.sample of min(target, population) entries.  rng c abstracts
the stream consumed by the c-th random call. -/
def selectionParts (rng : Nat → Nat → Nat) (boxes_by_level : Nat → List LeitnerBox)
    (count : Nat) : List LeitnerBox :=
  let tgt := targetCounts boxes_by_level count
  drawSample (rng 1) 0 (boxes_by_level 1) (min tgt.b1 (boxes_by_level 1).length) ++
    (drawSample (rng 2) 0 (boxes_by_level 2) (min tgt.b2 (boxes_by_level 2).length) ++
      (drawSample (rng 3) 0 (boxes_by_level 3) (min tgt.b3 (boxes_by_level 3).length) ++
        (drawSample (rng 4) 0 (boxes_by_level 4) (min tgt.b4 (boxes_by_level 4).length) ++
          drawSample (rng 5) 0 (boxes_by_level 5) (min tgt.b5 (boxes_by_level 5).length))))

/-- _select_questions_by_probability (leitner_service.py lines 294-333):
empty inventory gives []; otherwise draw per-level samples of the target
sizes, shuffle the concatenation, and truncate to count (c = 6 is the
shuffle's random call). -/
def select_questions_by_probability (rng : Nat → Nat → Nat)
    (boxes_by_level : Nat → List LeitnerBox) (count : Nat) : List LeitnerBox :=
  if (availCounts boxes_by_level).total = 0 then []
  else (shuffleModel (rng 6) (selectionParts rng boxes_by_level count)).take count

/-- The projection that forgets the review timestamp of a Box Entry,
keeping everything the scheduler reads. -/
def stripReview (b : LeitnerBox) : LeitnerBox :=
  { b with last_reviewed_at := none }

/-- Errors surfaced by start_leitner_session. -/
inductive LeitnerStartError where
  | insufficientPermissions
  | invalidQuestionCount
  | leitnerNoQuestions
deriving DecidableEq, Repr

/-- start_leitner_session (leitner_service.py lines 50-123): the member
flag stands for the is_classroom_member collaborator; boxes is the
student's Box Entry inventory for the classroom.  Returns the selected
boxes and the (possibly shrunk) question count. -/
def start_leitner_session (rng : Nat → Nat → Nat) (member : Bool)
    (boxes : List LeitnerBox) (question_count : Nat) :
    Except LeitnerStartError (List LeitnerBox × Nat) :=
  if member = false then .error .insufficientPermissions
  else if VALID_QUESTION_COUNTS.contains question_count = false then
    .error .invalidQuestionCount
  else if boxes.isEmpty = true then .error .leitnerNoQuestions
  else if (if (select_questions_by_probability rng (boxesByLevel boxes)
          question_count).length < question_count
      then (select_questions_by_probability rng (boxesByLevel boxes)
          question_count).length
      else question_count) = 0 then .error .leitnerNoQuestions
  else
    .ok (select_questions_by_probability rng (boxesByLevel boxes) question_count,
      if (select_questions_by_probability rng (boxesByLevel boxes)
          question_count).length < question_count
      then (select_questions_by_probability rng (boxesByLevel boxes)
          question_count).length
      else question_count)

/-! Answer evaluator (app/services/session_service.py, evaluate_answer)
and its data model (app/models/question.py). -/

/-- QuestionType enum. -/
inductive QuestionType where
  | QCM
  | VRAI_FAUX
  | MATCHING
  | IMAGE
  | TEXT
deriving DecidableEq, Repr

/-- QuestionOption row. -/
structure QuestionOption where
  id : String
  text_choice : String
  is_correct : Bool
deriving DecidableEq, Repr

/-- MatchingPair row. -/
structure MatchingPair where
  item_left : String
  item_right : String
deriving DecidableEq, Repr

/-- ImageZone row.  The float coordinates are modeled as integers; the
hit test compares squared distances, which matches the float
sqrt(dx*dx + dy*dy) <= radius for radius >= 0 (float rounding is not
modeled). -/
structure ImageZone where
  id : String
  label_name : String
  x : Int
  y : Int
  radius : Int
deriving DecidableEq, Repr

/-- TextConfig row. -/
structure TextConfig where
  accepted_answer : String
  is_case_sensitive : Bool
  ignore_spelling_errors : Bool
deriving DecidableEq, Repr

/-- A question with its type-specific payload rows. -/
structure Question where
  id : String
  quiz_id : String
  type : QuestionType
  options : List QuestionOption
  matching_pairs : List MatchingPair
  image_zones : List ImageZone
  text_config : Option TextConfig
deriving DecidableEq, Repr

/-- A JSON field of an answer payload as Python sees it: the key may be
absent (dict.get returns the default), present with value null (None), or
present with a value. -/
inductive Field (α : Type) where
  | missing
  | null
  | val (a : α)
deriving DecidableEq, Repr

/-- The clicked_coordinates sub-dict. -/
structure Coordinates where
  x : Field Int
  y : Field Int
deriving DecidableEq, Repr

/-- Python truthiness of the clicked_coordinates dict: None and the empty
dict are falsy (both keys absent models the empty dict). -/
def Coordinates.isTruthy (c : Coordinates) : Bool :=
  !(c.x == Field.missing) || !(c.y == Field.missing)

/-- The submitted answer payload. -/
structure AnswerData where
  selected_option_ids : Field (List String)
  selected_option_id : Field String
  pairs : Field (List (String × String))
  clicked_coordinates : Field Coordinates
  selected_zone_ids : Field (List String)
  text_answer : Field String
deriving DecidableEq, Repr

/-- The Python exceptions evaluate_answer can raise. -/
inductive PyError where
  | typeError
  | attributeError
  | multipleResultsFound
deriving DecidableEq, Repr

/-- Python str.strip(): drop whitespace from both ends (modeled over the
char list; Unicode whitespace beyond Char.isWhitespace is not modeled). -/
def pyStrip (s : String) : String :=
  ⟨((s.data.dropWhile Char.isWhitespace).reverse.dropWhile Char.isWhitespace).reverse⟩

/-- Python str.lower() (ASCII case mapping; full Unicode case folding is
not modeled). -/
def pyLower (s : String) : String :=
  ⟨s.data.map Char.toLower⟩

/-- Python set(l1) == set(l2) for string lists. -/
def setEq (l1 l2 : List String) : Bool :=
  l1.all (fun a => l2.contains a) && l2.all (fun a => l1.contains a)

/-- Lookup in a string-keyed dict represented as a key-value list (keys
unique: Python dicts cannot repeat keys; duplicate item_left rows are not
modeled). -/
def dictLookup (d : List (String × String)) (k : String) : Option String :=
  (d.find? (fun kv => kv.1 == k)).map (fun kv => kv.2)

/-- Python dict equality over such lists. -/
def dictEq (d1 d2 : List (String × String)) : Bool :=
  d1.all (fun kv => dictLookup d2 kv.1 == some kv.2) &&
    d2.all (fun kv => dictLookup d1 kv.1 == some kv.2)

/-- The selected_zone_ids fallback branch of the IMAGE case (taken when
clicked_coordinates is falsy). -/
def zoneFallback (q : Question) (answer_data : AnswerData) : Except PyError Bool :=
  match answer_data.selected_zone_ids with
  | .null => .error .typeError
  | .missing => .ok (setEq [] (q.image_zones.map (fun z => z.id)))
  | .val ids => .ok (setEq ids (q.image_zones.map (fun z => z.id)))

/-- evaluate_answer (session_service.py lines 222-295), with Python error
behavior explicit: set(None) raises TypeError, None.strip() raises
AttributeError, and scalar_one_or_none on a VRAI_FAUX question with more
than one correct option raises MultipleResultsFound.  Note the TEXT branch
is a plain string comparison after strip and optional lower-casing; the
stored ignore_spelling_errors flag is never read (the code comments that
spelling tolerance would need an external library). -/
def evaluate_answer (q : Question) (answer_data : AnswerData) : Except PyError Bool :=
  match q.type with
  | .QCM =>
    match answer_data.selected_option_ids with
    | .null => .error .typeError
    | .missing =>
      .ok (setEq [] ((q.options.filter (fun o => o.is_correct)).map (fun o => o.id)))
    | .val ids =>
      .ok (setEq ids ((q.options.filter (fun o => o.is_correct)).map (fun o => o.id)))
  | .VRAI_FAUX =>
    match q.options.filter (fun o => o.is_correct) with
    | [] => .ok false
    | [copt] =>
      match answer_data.selected_option_id with
      | .val s => .ok (s == copt.id)
      | _ => .ok false
    | _ => .error .multipleResultsFound
  | .MATCHING =>
    match answer_data.pairs with
    | .null => .ok false
    | .missing =>
      .ok (dictEq [] (q.matching_pairs.map (fun mp => (mp.item_left, mp.item_right))))
    | .val p =>
      .ok (dictEq p (q.matching_pairs.map (fun mp => (mp.item_left, mp.item_right))))
  | .IMAGE =>
    match answer_data.clicked_coordinates with
    | .val c =>
      if c.isTruthy then
        match (match c.x with | .missing => some 0 | .null => none | .val v => some v),
            (match c.y with | .missing => some 0 | .null => none | .val v => some v) with
        | some xv, some yv =>
          .ok (q.image_zones.any (fun z =>
            decide (0 ≤ z.radius) &&
              decide ((xv - z.x) * (xv - z.x) + (yv - z.y) * (yv - z.y) ≤
                z.radius * z.radius)))
        | _, _ => .error .typeError
      else zoneFallback q answer_data
    | _ => zoneFallback q answer_data
  | .TEXT =>
    match answer_data.text_answer with
    | .null => .error .attributeError
    | ua =>
      match q.text_config with
      | none => .ok false
      | some config =>
        if config.is_case_sensitive then
          .ok (pyStrip (match ua with | .val s => s | _ => "") ==
            pyStrip config.accepted_answer)
        else
          .ok (pyLower (pyStrip (match ua with | .val s => s | _ => "")) ==
            pyLower (pyStrip config.accepted_answer))

/-- Levenshtein edit distance as the specification describes it for TEXT
questions (structured over a fuel argument so the kernel can evaluate it;
fuel |s| + |t| always suffices since every recursive call shrinks the
combined length). -/
def levFuel : Nat → List Char → List Char → Nat
  | _, [], ys => ys.length
  | _, xs, [] => xs.length
  | 0, _, _ => 0
  | n + 1, x :: xs, y :: ys =>
    if x = y then levFuel n xs ys
    else 1 + min (levFuel n xs (y :: ys)) (min (levFuel n (x :: xs) ys) (levFuel n xs ys))

def levenshtein (s t : String) : Nat :=
  levFuel (s.length + t.length) s.data t.data

/-- The creation-time shape every question stored through create_question
satisfies (question_service.py validation), plus the at-most-one-correct
shape the VRAI_FAUX evaluator relies on; TEXT requires a non-blank
accepted answer. -/
def wellFormedQuestion (q : Question) : Bool :=
  match q.type with
  | .QCM => !(q.options.filter (fun o => o.is_correct)).isEmpty
  | .VRAI_FAUX => decide ((q.options.filter (fun o => o.is_correct)).length ≤ 1)
  | .MATCHING => decide (2 ≤ q.matching_pairs.length)
  | .IMAGE => !q.image_zones.isEmpty
  | .TEXT => q.text_config.all (fun cfg => !(pyStrip cfg.accepted_answer == ""))

/-! Session lifecycle (app/services/session_service.py and the stateful
part of leitner_service.py) over an explicit database state. -/

/-- SessionStatus enum (app/models/session.py). -/
inductive SessionStatus where
  | IN_PROGRESS
  | COMPLETED
  | ABANDONED
deriving DecidableEq, Repr

/-- QuizSession row. -/
structure QuizSession where
  id : String
  quiz_id : String
  student_id : String
  classroom_id : String
  status : SessionStatus
  total_score : Nat
  max_score : Nat
  passed : Bool
  started_at : Nat
  completed_at : Option Nat
deriving DecidableEq, Repr

/-- SessionAnswer row (verdict and keys; the raw payload text is not
needed by any claim). -/
structure SessionAnswer where
  session_id : String
  question_id : String
  is_correct : Bool
deriving DecidableEq, Repr

/-- Quiz row (app/models/quiz.py). -/
structure Quiz where
  id : String
  module_id : String
  prerequisite_quiz_id : Option String
  min_score_to_unlock_next : Nat
  is_active : Bool
deriving DecidableEq, Repr

/-- LeitnerSession row (app/models/leitner.py). -/
structure LeitnerSession where
  id : String
  classroom_id : String
  student_id : String
  question_count : Nat
  correct_answers : Nat
  wrong_answers : Nat
  promoted : Nat
  demoted : Nat
  started_at : Nat
  completed_at : Option Nat
deriving DecidableEq, Repr

/-- LeitnerSessionAnswer row. -/
structure LeitnerAnswer where
  session_id : String
  question_id : String
  is_correct : Bool
  previous_box : Nat
  new_box : Nat
deriving DecidableEq, Repr

/-- The database state the services read and write.  Completed quizzes and
modules are keyed (student_id, quiz_id) / (student_id, module_id). -/
structure Db where
  sessions : List QuizSession
  session_answers : List SessionAnswer
  questions : List Question
  quizzes : List Quiz
  completed_quizzes : List (String × String)
  completed_modules : List (String × String)
  leitner_boxes : List LeitnerBox
  leitner_sessions : List LeitnerSession
  leitner_answers : List LeitnerAnswer
deriving DecidableEq, Repr

/-- The HTTP-level errors these services raise. -/
inductive ApiError where
  | sessionNotFound
  | insufficientPermissions
  | sessionAlreadyFinished
  | questionNotInSession
  | conflict
  | questionNotFound
  | questionNotInLeitner
  | pyError (e : PyError)
deriving DecidableEq, Repr

/-- Mutate the first row matching the predicate (the ORM mutates the row
object scalar_one_or_none returned; primary keys are unique). -/
def updateFirst {α : Type} (p : α → Bool) (f : α → α) : List α → List α
  | [] => []
  | x :: xs => if p x then f x :: xs else x :: updateFirst p f xs

def findSession (db : Db) (session_id : String) : Option QuizSession :=
  db.sessions.find? (fun s => s.id == session_id)

def findQuestion (db : Db) (question_id : String) : Option Question :=
  db.questions.find? (fun q => q.id == question_id)

def findAnswer (db : Db) (session_id question_id : String) : Option SessionAnswer :=
  db.session_answers.find?
    (fun a => a.session_id == session_id && a.question_id == question_id)

def findQuiz (db : Db) (quiz_id : String) : Option Quiz :=
  db.quizzes.find? (fun q => q.id == quiz_id)

/-- The (classroom, student, question) key of a Box Entry row. -/
def boxKey (classroom_id student_id question_id : String) (b : LeitnerBox) : Bool :=
  b.classroom_id == classroom_id && b.student_id == student_id &&
    b.question_id == question_id

def findLeitnerBox (db : Db) (classroom_id student_id question_id : String) :
    Option LeitnerBox :=
  db.leitner_boxes.find? (boxKey classroom_id student_id question_id)

def findLeitnerSession (db : Db) (session_id : String) : Option LeitnerSession :=
  db.leitner_sessions.find? (fun s => s.id == session_id)

def findLeitnerAnswer (db : Db) (session_id question_id : String) :
    Option LeitnerAnswer :=
  db.leitner_answers.find?
    (fun a => a.session_id == session_id && a.question_id == question_id)

/-- submit_answer (session_service.py lines 92-154).  Times are seconds;
the 2-hour expiry check is now - started_at > 7200 (the session clock is
monotone, started_at ≤ now).  The expiry branch commits the ABANDONED
status before raising, so the state is returned next to the error. -/
def submit_answer (db : Db) (now : Nat) (session_id question_id : String)
    (answer_data : AnswerData) (uid : String) : Db × Except ApiError Bool :=
  match findSession db session_id with
  | none => (db, .error .sessionNotFound)
  | some session =>
    if session.student_id ≠ uid then (db, .error .insufficientPermissions)
    else if session.status ≠ .IN_PROGRESS then (db, .error .sessionAlreadyFinished)
    else if 7200 < now - session.started_at then
      ({ db with sessions := (updateFirst (fun s => s.id == session_id)
          (fun s => { s with status := .ABANDONED }) db.sessions) },
        .error .sessionAlreadyFinished)
    else
      match findQuestion db question_id with
      | none => (db, .error .questionNotInSession)
      | some question =>
        if question.quiz_id ≠ session.quiz_id then (db, .error .questionNotInSession)
        else
          match findAnswer db session_id question_id with
          | some _ => (db, .error .conflict)
          | none =>
            match evaluate_answer question answer_data with
            | .error e => (db, .error (.pyError e))
            | .ok is_correct =>
              ({ db with session_answers := db.session_answers ++
                  [⟨session_id, question_id, is_correct⟩] }, .ok is_correct)

/-- The finish-time aggregation: count of correct persisted answers. -/
def countCorrect (db : Db) (session_id : String) : Nat :=
  (db.session_answers.filter
    (fun a => a.session_id == session_id && a.is_correct)).length

/-- One pass of the question-seeding loop of _complete_quiz: add a box at
level 1 unless a Box Entry already exists at any level (each iteration
sees the rows earlier iterations added, as the ORM autoflush does). -/
def seedBoxes (classroom_id student_id : String) :
    List Question → List LeitnerBox → List LeitnerBox
  | [], boxes => boxes
  | question :: rest, boxes =>
    seedBoxes classroom_id student_id rest
      (if (boxes.find? (boxKey classroom_id student_id question.id)).isSome
        then boxes
        else boxes ++ [⟨classroom_id, student_id, question.id, 1, 0, none⟩])

/-- _check_module_completion (session_service.py lines 341-367): if every
gating quiz of the module (min_score_to_unlock_next > 0) is completed,
idempotently record module completion. -/
def check_module_completion (db : Db) (module_id student_id : String) : Db :=
  if (db.quizzes.filter
      (fun q => q.module_id == module_id && 0 < q.min_score_to_unlock_next)).all
      (fun q => (db.completed_quizzes.find?
        (fun c => c.1 == student_id && c.2 == q.id)).isSome) then
    if (db.completed_modules.find?
        (fun c => c.1 == student_id && c.2 == module_id)).isSome then db
    else { db with completed_modules := db.completed_modules ++
      [(student_id, module_id)] }
  else db

/-- The gating condition _check_module_completion tests: every quiz of
the module with min_score_to_unlock_next > 0 has a completion row. -/
def gatingDone (db : Db) (module_id student_id : String) : Bool :=
  (db.quizzes.filter
    (fun q => q.module_id == module_id && 0 < q.min_score_to_unlock_next)).all
    (fun q => (db.completed_quizzes.find?
      (fun c => c.1 == student_id && c.2 == q.id)).isSome)

/-- Whether a module-completion row for (student, module) is stored. -/
def modulePresent (db : Db) (student_id module_id : String) : Bool :=
  (db.completed_modules.find?
    (fun c => c.1 == student_id && c.2 == module_id)).isSome

/-- Number of stored quiz-completion rows for (student, quiz). -/
def countCompletedQuiz (db : Db) (student_id quiz_id : String) : Nat :=
  (db.completed_quizzes.filter
    (fun p => p.1 == student_id && p.2 == quiz_id)).length

/-- Number of stored module-completion rows for (student, module). -/
def countCompletedModule (db : Db) (student_id module_id : String) : Nat :=
  (db.completed_modules.filter
    (fun p => p.1 == student_id && p.2 == module_id)).length

/-- _complete_quiz (session_service.py lines 298-338): idempotently record
quiz completion, seed the quiz's questions into Leitner box 1 (skipping
questions already boxed at any level), then re-check module completion. -/
def complete_quiz (db : Db) (quiz_id student_id classroom_id : String) : Db :=
  let db1 := if (db.completed_quizzes.find?
      (fun c => c.1 == student_id && c.2 == quiz_id)).isSome then db
    else { db with completed_quizzes := db.completed_quizzes ++
      [(student_id, quiz_id)] }
  let db2 := { db1 with leitner_boxes := (seedBoxes classroom_id student_id
    (db1.questions.filter (fun q => q.quiz_id == quiz_id)) db1.leitner_boxes) }
  match db2.quizzes.find? (fun q => q.id == quiz_id) with
  | none => db2
  | some quiz => check_module_completion db2 quiz.module_id student_id

/-- The session record finish_session writes: score aggregated from the
persisted answers, passed is total_score >= quiz.min_score_to_unlock_next,
status COMPLETED, completion time stamped. -/
def finishedSession (db : Db) (now : Nat) (session_id : String)
    (session : QuizSession) (quiz : Quiz) : QuizSession :=
  { session with
    total_score := countCorrect db session_id,
    status := .COMPLETED,
    completed_at := some now,
    passed := decide (quiz.min_score_to_unlock_next ≤ countCorrect db session_id) }

/-- The database state after finish_session on a live session: the session
row is replaced and, on a pass, _complete_quiz runs. -/
def finishedDb (db : Db) (now : Nat) (session_id uid : String)
    (session : QuizSession) (quiz : Quiz) : Db :=
  if (finishedSession db now session_id session quiz).passed then
    complete_quiz { db with sessions := (updateFirst (fun s => s.id == session_id)
      (fun _ => finishedSession db now session_id session quiz) db.sessions) }
      session.quiz_id uid session.classroom_id
  else { db with sessions := (updateFirst (fun s => s.id == session_id)
    (fun _ => finishedSession db now session_id session quiz) db.sessions) }

/-- finish_session (session_service.py lines 157-199).  A missing quiz row
would be an AttributeError before any commit, leaving the state
unchanged. -/
def finish_session (db : Db) (now : Nat) (session_id uid : String) :
    Db × Except ApiError QuizSession :=
  match findSession db session_id with
  | none => (db, .error .sessionNotFound)
  | some session =>
    if session.student_id ≠ uid then (db, .error .insufficientPermissions)
    else if session.status ≠ .IN_PROGRESS then (db, .error .sessionAlreadyFinished)
    else
      match findQuiz db session.quiz_id with
      | none => (db, .error (.pyError .attributeError))
      | some quiz =>
        (finishedDb db now session_id uid session quiz,
          .ok (finishedSession db now session_id session quiz))

/-- submit_leitner_answer (leitner_service.py lines 126-204): the box
transition is computed at submit time from the live box level and stored
on the answer row. -/
def submit_leitner_answer (db : Db) (session_id question_id : String)
    (answer_data : AnswerData) (uid : String) : Db × Except ApiError Bool :=
  match findLeitnerSession db session_id with
  | none => (db, .error .sessionNotFound)
  | some session =>
    if session.student_id ≠ uid then (db, .error .insufficientPermissions)
    else if session.completed_at.isSome then (db, .error .sessionAlreadyFinished)
    else
      match findLeitnerAnswer db session_id question_id with
      | some _ => (db, .error .conflict)
      | none =>
        match findQuestion db question_id with
        | none => (db, .error .questionNotFound)
        | some question =>
          match findLeitnerBox db session.classroom_id uid question_id with
          | none => (db, .error .questionNotInLeitner)
          | some leitner_box =>
            match evaluate_answer question answer_data with
            | .error e => (db, .error (.pyError e))
            | .ok is_correct =>
              ({ db with leitner_answers := db.leitner_answers ++
                  [⟨session_id, question_id, is_correct, leitner_box.box_level,
                    if is_correct then min (leitner_box.box_level + 1) 5 else 1⟩] },
                .ok is_correct)

/-- The box-update loop of finish_leitner_session: write each answer's
stored new_box to the live row (if present) and stamp the review time. -/
def applyBoxTransitions (classroom_id student_id : String) (now : Nat) :
    List LeitnerAnswer → List LeitnerBox → List LeitnerBox
  | [], boxes => boxes
  | a :: rest, boxes =>
    applyBoxTransitions classroom_id student_id now rest
      (updateFirst (boxKey classroom_id student_id a.question_id)
        (fun b => { b with box_level := a.new_box, last_reviewed_at := some now })
        boxes)

/-- The answers of a Leitner session whose live box row exists: only these
are counted in the finish stats (the loop guards on finding the row). -/
def leitnerCounted (db : Db) (session_id classroom_id uid : String) :
    List LeitnerAnswer :=
  (db.leitner_answers.filter (fun a => a.session_id == session_id)).filter
    (fun a => (findLeitnerBox db classroom_id uid a.question_id).isSome)

/-- The session record finish_leitner_session writes: stats derived from
the stored previous_box/new_box of the counted answers, completion time
stamped. -/
def leitnerFinishedSession (db : Db) (now : Nat) (session_id uid : String)
    (session : LeitnerSession) : LeitnerSession :=
  { session with
    correct_answers := ((leitnerCounted db session_id session.classroom_id uid).filter
      (fun a => a.is_correct)).length,
    wrong_answers := ((leitnerCounted db session_id session.classroom_id uid).filter
      (fun a => !a.is_correct)).length,
    promoted := ((leitnerCounted db session_id session.classroom_id uid).filter
      (fun a => a.is_correct && a.previous_box < a.new_box)).length,
    demoted := ((leitnerCounted db session_id session.classroom_id uid).filter
      (fun a => !a.is_correct && a.new_box < a.previous_box)).length,
    completed_at := some now }

/-- The database state after finish_leitner_session: every stored new_box
is written to the live rows and the session row is replaced. -/
def leitnerFinishedDb (db : Db) (now : Nat) (session_id uid : String)
    (session : LeitnerSession) : Db :=
  { db with
    leitner_boxes := (applyBoxTransitions session.classroom_id uid now
      (db.leitner_answers.filter (fun a => a.session_id == session_id))
      db.leitner_boxes),
    leitner_sessions := (updateFirst (fun s => s.id == session_id)
      (fun _ => leitnerFinishedSession db now session_id uid session)
      db.leitner_sessions) }

/-- finish_leitner_session (leitner_service.py lines 207-271). -/
def finish_leitner_session (db : Db) (now : Nat) (session_id uid : String) :
    Db × Except ApiError LeitnerSession :=
  match findLeitnerSession db session_id with
  | none => (db, .error .sessionNotFound)
  | some session =>
    if session.student_id ≠ uid then (db, .error .insufficientPermissions)
    else if session.completed_at.isSome then (db, .error .sessionAlreadyFinished)
    else
      (leitnerFinishedDb db now session_id uid session,
        .ok (leitnerFinishedSession db now session_id uid session))

/-! Prerequisite cycle checker (app/services/quiz_service.py). -/

def MAX_PREREQUISITE_DEPTH : Nat := 50

/-- has_circular_quiz_prerequisite (quiz_service.py lines 175-194).  The
source checks depth > 50 at entry and recurses with depth + 1; fuel counts
the remaining allowed entries, starting at MAX + 1 for depth 0, so fuel 0
is exactly the depth-bound rejection (fail closed).  visited is the
Python set, modeled by membership in a list. -/
def hasCircularFrom (quizzes : List Quiz) : Nat → List String → String → Bool
  | 0, _, _ => true
  | fuel + 1, visited, quiz_id =>
    if visited.contains quiz_id then true
    else
      match quizzes.find? (fun q => q.id == quiz_id) with
      | none => false
      | some quiz =>
        match quiz.prerequisite_quiz_id with
        | none => false
        | some pre => hasCircularFrom quizzes fuel (visited ++ [quiz_id]) pre

def has_circular_quiz_prerequisite (quizzes : List Quiz) (quiz_id : String) : Bool :=
  hasCircularFrom quizzes (MAX_PREREQUISITE_DEPTH + 1) [] quiz_id

/-- The errors update_quiz raises on the prerequisite path. -/
inductive QuizUpdateError where
  | quizNotFound
  | prerequisiteNotFound
  | circularPrerequisite
deriving DecidableEq, Repr

/-- update_quiz (quiz_service.py lines 96-154), restricted to setting a
prerequisite: self-reference is rejected before any graph access; the edge
is flushed and the cycle walk runs from the quiz itself; the rejection
raises before commit, so no state survives (the error carries no list). -/
def update_quiz_prerequisite (quizzes : List Quiz) (quiz_id prerequisite_quiz_id : String) :
    Except QuizUpdateError (List Quiz) :=
  if (quizzes.find? (fun q => q.id == quiz_id)).isNone then .error .quizNotFound
  else if prerequisite_quiz_id == quiz_id then .error .circularPrerequisite
  else if (quizzes.find? (fun q => q.id == prerequisite_quiz_id)).isNone then
    .error .prerequisiteNotFound
  else
    let updated := updateFirst (fun q => q.id == quiz_id)
      (fun q => { q with prerequisite_quiz_id := some prerequisite_quiz_id }) quizzes
    if has_circular_quiz_prerequisite updated quiz_id then .error .circularPrerequisite
    else .ok updated

/-! Concrete fixtures used to instantiate the theorems below. -/

/-- A TEXT question holding only a text config. -/
def mkTextQuestion (cfg : TextConfig) : Question :=
  { id := "q1", quiz_id := "z1", type := .TEXT, options := [], matching_pairs := [],
    image_zones := [], text_config := some cfg }

/-- The payload a client sends for a TEXT answer. -/
def textPayload (s : String) : AnswerData :=
  { selected_option_ids := .missing, selected_option_id := .missing, pairs := .missing,
    clicked_coordinates := .missing, selected_zone_ids := .missing,
    text_answer := .val s }

/-- A payload with every field absent. -/
def emptyPayload : AnswerData :=
  { selected_option_ids := .missing, selected_option_id := .missing, pairs := .missing,
    clicked_coordinates := .missing, selected_zone_ids := .missing,
    text_answer := .missing }

/-- A payload with an explicit null text_answer. -/
def nullTextPayload : AnswerData :=
  { emptyPayload with text_answer := .null }

/-- A payload with an explicit null selected_option_ids. -/
def nullIdsPayload : AnswerData :=
  { emptyPayload with selected_option_ids := .null }

/-- Quiz A without prerequisite and quiz B whose prerequisite is A. -/
def c8Quizzes : List Quiz :=
  [⟨"quizA", "m1", none, 0, true⟩, ⟨"quizB", "m1", some "quizA", 0, true⟩]

/-- A linear prerequisite chain 0 ← 1 ← ... ← n-1 (acyclic). -/
def chainQuizzes (n : Nat) : List Quiz :=
  (List.range n).map (fun i =>
    ⟨toString i, "m1", if i + 1 < n then some (toString (i + 1)) else none, 0, true⟩)

/-- An in-progress quiz session with one correct persisted answer, an open
Leitner session, and their quiz row. -/
def c6Session : QuizSession :=
  ⟨"s1", "qz1", "stu1", "cls1", .IN_PROGRESS, 0, 1, false, 0, none⟩

def c6Quiz : Quiz := ⟨"qz1", "m1", none, 1, true⟩

def c6LSession : LeitnerSession := ⟨"ls1", "cls1", "stu1", 5, 0, 0, 0, 0, 0, none⟩

def c6Db : Db :=
  { sessions := [c6Session], session_answers := [⟨"s1", "q1", true⟩], questions := [],
    quizzes := [c6Quiz], completed_quizzes := [], completed_modules := [],
    leitner_boxes := [], leitner_sessions := [c6LSession], leitner_answers := [] }

/-- C5 fixtures: an in-progress owned session with one matching TEXT
question, plus an open Leitner session whose question sits in box 2. -/
def c5Session : QuizSession :=
  ⟨"s5", "qz5", "stu1", "cls1", .IN_PROGRESS, 0, 1, false, 0, none⟩

def c5Question : Question :=
  { id := "q5", quiz_id := "qz5", type := .TEXT, options := [], matching_pairs := [],
    image_zones := [], text_config := some ⟨"ok", true, false⟩ }

def c5LSession : LeitnerSession := ⟨"ls5", "cls1", "stu1", 5, 0, 0, 0, 0, 0, none⟩

def c5Db : Db :=
  { sessions := [c5Session], session_answers := [], questions := [c5Question],
    quizzes := [⟨"qz5", "m1", none, 1, true⟩], completed_quizzes := [],
    completed_modules := [], leitner_boxes := [⟨"cls1", "stu1", "q5", 2, 0, none⟩],
    leitner_sessions := [c5LSession], leitner_answers := [] }

/-- C3 fixture: the C5 database with one already-answered boxed question
q6 (correct from box 2), so the finish loop has a row to move. -/
def c3Ans : LeitnerAnswer := ⟨"ls5", "q6", true, 2, 3⟩

def c3Db : Db :=
  { c5Db with
    leitner_boxes := (c5Db.leitner_boxes ++ [⟨"cls1", "stu1", "q6", 2, 0, none⟩]),
    leitner_answers := [c3Ans] }

/-- C7 fixtures: one quiz with one question; the student has no
completion rows yet, question q7 is unboxed and q8 sits promoted in
box 4. -/
def c7Question : Question :=
  { id := "q7", quiz_id := "qz7", type := .TEXT, options := [], matching_pairs := [],
    image_zones := [], text_config := some ⟨"a", true, false⟩ }

def c7Db : Db :=
  { sessions := [], session_answers := [], questions := [c7Question],
    quizzes := [⟨"qz7", "m7", none, 1, true⟩], completed_quizzes := [],
    completed_modules := [], leitner_boxes := [⟨"cls1", "stu1", "q8", 4, 0, none⟩],
    leitner_sessions := [], leitner_answers := [] }

/-- A deterministic rng stream (every Mersenne-Twister run is some such
function; this one always picks position 0). -/
def zeroRng : Nat → Nat → Nat := fun _ _ => 0

/-- 25 box entries, 5 in each of the levels 1..5. -/
def c1Boxes : List LeitnerBox :=
  (List.range 25).map (fun i => ⟨"class1", "student1", toString i, i / 5 + 1, 0, none⟩)

/-- 3 box entries, all in level 1. -/
def c2Boxes : List LeitnerBox :=
  [⟨"class1", "student1", "qa", 1, 0, none⟩, ⟨"class1", "student1", "qb", 1, 0, none⟩,
    ⟨"class1", "student1", "qc", 1, 0, none⟩]

/-- Two single-entry inventories that differ only in last_reviewed_at. -/
def c10BoxesA : List LeitnerBox := [⟨"class1", "student1", "qa", 2, 0, some 5⟩]

def c10BoxesB : List LeitnerBox := [⟨"class1", "student1", "qa", 2, 0, none⟩]

/-! Sampling infrastructure lemmas. -/

theorem perm_getD_cons_eraseIdx {α : Type} (xs : List α) (i : Nat) (hi : i < xs.length) (d : α) :
    xs.Perm (xs.getD i d :: xs.eraseIdx i) := by
  rw [List.getD_eq_getElem xs d hi, List.eraseIdx_eq_take_drop_succ]
  conv_lhs => rw [← List.take_append_drop i xs, List.drop_eq_getElem_cons hi]
  exact List.perm_middle

theorem drawSample_length {α : Type} (r : Nat → Nat) (step : Nat) (xs : List α) (k : Nat) :
    (drawSample r step xs k).length = min k xs.length := by
  induction k generalizing step xs with
  | zero => simp [drawSample]
  | succ k ih =>
    cases xs with
    | nil => simp [drawSample]
    | cons x rest =>
      have hi : r step % (x :: rest).length < (x :: rest).length :=
        Nat.mod_lt _ (by simp)
      simp only [drawSample]
      rw [List.length_cons, ih, List.length_eraseIdx_of_lt hi]
      simp only [List.length_cons]
      omega

theorem mem_of_mem_drawSample {α : Type} {r : Nat → Nat} {step k : Nat} {xs : List α}
    {a : α} (h : a ∈ drawSample r step xs k) : a ∈ xs := by
  induction k generalizing step xs with
  | zero => simp [drawSample] at h
  | succ k ih =>
    cases xs with
    | nil => simp [drawSample] at h
    | cons x rest =>
      have hi : r step % (x :: rest).length < (x :: rest).length :=
        Nat.mod_lt _ (by simp)
      simp only [drawSample, List.mem_cons] at h
      rcases h with h | h
      · rw [h, List.getD_eq_getElem _ _ hi]
        exact List.getElem_mem hi
      · exact List.eraseIdx_subset _ _ (ih h)

theorem drawSample_perm_aux {α : Type} (k : Nat) :
    ∀ (r : Nat → Nat) (step : Nat) (xs : List α), xs.length = k →
      (drawSample r step xs k).Perm xs := by
  induction k with
  | zero =>
    intro r step xs h
    rw [List.length_eq_zero.mp h]
    simp [drawSample]
  | succ k ih =>
    intro r step xs h
    cases xs with
    | nil => simp at h
    | cons x rest =>
      have hi : r step % (x :: rest).length < (x :: rest).length :=
        Nat.mod_lt _ (by simp)
      have hlen : ((x :: rest).eraseIdx (r step % (x :: rest).length)).length = k := by
        rw [List.length_eraseIdx_of_lt hi]
        simp only [List.length_cons] at h ⊢
        omega
      simp only [drawSample]
      exact ((ih _ _ _ hlen).cons _).trans (perm_getD_cons_eraseIdx _ _ hi x).symm

theorem shuffleModel_perm {α : Type} (r : Nat → Nat) (xs : List α) :
    (shuffleModel r xs).Perm xs :=
  drawSample_perm_aux xs.length r 0 xs rfl

theorem eraseIdx_map_comm {α β : Type} (f : α → β) (l : List α) (i : Nat) :
    (l.map f).eraseIdx i = (l.eraseIdx i).map f := by
  induction l generalizing i with
  | nil => simp
  | cons x xs ih =>
    cases i with
    | zero => simp [List.eraseIdx]
    | succ i => simp [List.eraseIdx, ih]

theorem drawSample_map {α β : Type} (f : α → β) (r : Nat → Nat) (step : Nat)
    (xs : List α) (k : Nat) :
    drawSample r step (xs.map f) k = (drawSample r step xs k).map f := by
  induction k generalizing step xs with
  | zero => simp [drawSample]
  | succ k ih =>
    cases xs with
    | nil => simp [drawSample]
    | cons x rest =>
      show drawSample r step (f x :: rest.map f) (k + 1) = _
      simp only [drawSample, List.length_cons, List.length_map, List.map_cons]
      have h1 : (f x :: rest.map f) = (x :: rest).map f := by simp
      rw [h1, List.getD_map, eraseIdx_map_comm, ih]

theorem shuffleModel_map {α β : Type} (f : α → β) (r : Nat → Nat) (xs : List α) :
    shuffleModel r (xs.map f) = (shuffleModel r xs).map f := by
  unfold shuffleModel
  rw [List.length_map, drawSample_map]

/-! Target-count arithmetic. -/

theorem BoxCounts_mk_b1 (a b c d e : Nat) : (⟨a, b, c, d, e⟩ : BoxCounts).b1 = a := rfl

theorem BoxCounts_mk_b2 (a b c d e : Nat) : (⟨a, b, c, d, e⟩ : BoxCounts).b2 = b := rfl

theorem BoxCounts_mk_b3 (a b c d e : Nat) : (⟨a, b, c, d, e⟩ : BoxCounts).b3 = c := rfl

theorem BoxCounts_mk_b4 (a b c d e : Nat) : (⟨a, b, c, d, e⟩ : BoxCounts).b4 = d := rfl

theorem BoxCounts_mk_b5 (a b c d e : Nat) : (⟨a, b, c, d, e⟩ : BoxCounts).b5 = e := rfl

theorem BoxCounts_mk_total (a b c d e : Nat) :
    (⟨a, b, c, d, e⟩ : BoxCounts).total = a + b + c + d + e := rfl

/-- redistribute computes exactly the ascending backfill chain: name the
five per-level additions so the arithmetic stays shared. -/
theorem redistribute_spec (avail tgt : BoxCounts) (r : Nat) :
    ∃ x1 x2 x3 x4 x5,
      x1 = min r (avail.b1 - tgt.b1) ∧
      x2 = min (r - x1) (avail.b2 - tgt.b2) ∧
      x3 = min (r - x1 - x2) (avail.b3 - tgt.b3) ∧
      x4 = min (r - x1 - x2 - x3) (avail.b4 - tgt.b4) ∧
      x5 = min (r - x1 - x2 - x3 - x4) (avail.b5 - tgt.b5) ∧
      redistribute avail tgt r =
        ⟨tgt.b1 + x1, tgt.b2 + x2, tgt.b3 + x3, tgt.b4 + x4, tgt.b5 + x5⟩ :=
  ⟨_, _, _, _, _, rfl, rfl, rfl, rfl, rfl, rfl⟩

/-- A backfill chain given enough budget fills every deficit. -/
theorem backfill_fill (r d1 d2 d3 d4 d5 x1 x2 x3 x4 x5 : Nat)
    (e1 : x1 = min r d1) (e2 : x2 = min (r - x1) d2) (e3 : x3 = min (r - x1 - x2) d3)
    (e4 : x4 = min (r - x1 - x2 - x3) d4) (e5 : x5 = min (r - x1 - x2 - x3 - x4) d5)
    (hfill : d1 + d2 + d3 + d4 + d5 ≤ r) :
    x1 = d1 ∧ x2 = d2 ∧ x3 = d3 ∧ x4 = d4 ∧ x5 = d5 := by
  omega

/-- A backfill chain whose budget fits in the first four deficits never
reaches level 5 and spends the whole budget. -/
theorem backfill_exhaust (r d1 d2 d3 d4 d5 x1 x2 x3 x4 x5 : Nat)
    (e1 : x1 = min r d1) (e2 : x2 = min (r - x1) d2) (e3 : x3 = min (r - x1 - x2) d3)
    (e4 : x4 = min (r - x1 - x2 - x3) d4) (e5 : x5 = min (r - x1 - x2 - x3 - x4) d5)
    (hr : r ≤ d1 + d2 + d3 + d4) :
    x5 = 0 ∧ x1 + x2 + x3 + x4 + x5 = r ∧ x1 ≤ d1 ∧ x2 ≤ d2 ∧ x3 ≤ d3 ∧ x4 ≤ d4 := by
  omega

theorem BoxCounts_mk_congr {y1 y2 y3 y4 y5 z1 z2 z3 z4 z5 : Nat} (q1 : y1 = z1)
    (q2 : y2 = z2) (q3 : y3 = z3) (q4 : y4 = z4) (q5 : y5 = z5) :
    (⟨y1, y2, y3, y4, y5⟩ : BoxCounts) = ⟨z1, z2, z3, z4, z5⟩ := by
  rw [q1, q2, q3, q4, q5]

/-! Partitioning the inventory by level. -/

theorem count_filter_list {α : Type} [DecidableEq α] (p : α → Bool) (a : α) (l : List α) :
    (l.filter p).count a = if p a then l.count a else 0 := by
  induction l with
  | nil => simp
  | cons x xs ih =>
    by_cases hpx : p x = true <;> by_cases hxa : x = a <;>
      simp [List.filter_cons, List.count_cons, hpx, hxa, ih] <;> simp_all

theorem count_boxesByLevel (boxes : List LeitnerBox) (level : Nat) (a : LeitnerBox) :
    (boxesByLevel boxes level).count a =
      if a.box_level = level then boxes.count a else 0 := by
  rw [boxesByLevel, count_filter_list]
  simp

theorem perm_boxesByLevel_concat (boxes : List LeitnerBox)
    (h : ∀ b ∈ boxes, 1 ≤ b.box_level ∧ b.box_level ≤ 5) :
    (boxesByLevel boxes 1 ++ (boxesByLevel boxes 2 ++ (boxesByLevel boxes 3 ++
      (boxesByLevel boxes 4 ++ boxesByLevel boxes 5)))).Perm boxes := by
  refine List.perm_iff_count.mpr fun a => ?_
  simp only [List.count_append, count_boxesByLevel]
  by_cases ha : a ∈ boxes
  · have := h a ha
    have hlv : a.box_level = 1 ∨ a.box_level = 2 ∨ a.box_level = 3 ∨
        a.box_level = 4 ∨ a.box_level = 5 := by omega
    rcases hlv with h' | h' | h' | h' | h' <;> simp [h']
  · have : boxes.count a = 0 := List.count_eq_zero.mpr ha
    simp [this]

theorem mem_boxesByLevel_level {boxes : List LeitnerBox} {level : Nat} {b : LeitnerBox}
    (h : b ∈ boxesByLevel boxes level) : b.box_level = level := by
  rw [boxesByLevel, List.mem_filter] at h
  simpa using h.2

/-! Shape of the pre-shuffle selection. -/

/-- The two target-analysis lemmas the claims need: the count = 20 session
over a well-stocked inventory, and the starved inventory. -/
theorem targetCounts_spec_20 (bbl : Nat → List LeitnerBox)
    (h1 : 5 ≤ (bbl 1).length) (h2 : 5 ≤ (bbl 2).length) (h3 : 5 ≤ (bbl 3).length)
    (h4 : 5 ≤ (bbl 4).length) (h5 : 5 ≤ (bbl 5).length) :
    ∃ t1 t2 t3 t4 t5 : Nat,
      targetCounts bbl 20 = ⟨t1, t2, t3, t4, t5⟩ ∧
      t1 ≤ (bbl 1).length ∧ t2 ≤ (bbl 2).length ∧ t3 ≤ (bbl 3).length ∧
      t4 ≤ (bbl 4).length ∧ t5 ≤ (bbl 5).length ∧
      t1 + t2 + t3 + t4 + t5 = 20 ∧ t5 = 0 ∧ 5 ≤ t1 := by
  have hw : initialTargets bbl 20 =
      ⟨min 10 (bbl 1).length, min 5 (bbl 2).length, min 3 (bbl 3).length,
        min 1 (bbl 4).length, 0⟩ := by
    rw [initialTargets]
    norm_num
  have hb1 : min 10 (bbl 1).length ≤ 10 := min_le_left _ _
  have hb2 : min 5 (bbl 2).length ≤ 5 := min_le_left _ _
  have hb3 : min 3 (bbl 3).length ≤ 3 := min_le_left _ _
  have hb4 : min 1 (bbl 4).length ≤ 1 := min_le_left _ _
  have hv1 : min 10 (bbl 1).length ≤ (bbl 1).length := min_le_right _ _
  have hv2 : min 5 (bbl 2).length ≤ (bbl 2).length := min_le_right _ _
  have hv3 : min 3 (bbl 3).length ≤ (bbl 3).length := min_le_right _ _
  have hv4 : min 1 (bbl 4).length ≤ (bbl 4).length := min_le_right _ _
  have hn1 : 5 ≤ min 10 (bbl 1).length := le_min (by norm_num) h1
  generalize hg1 : min 10 (bbl 1).length = u1 at *
  generalize hg2 : min 5 (bbl 2).length = u2 at *
  generalize hg3 : min 3 (bbl 3).length = u3 at *
  generalize hg4 : min 1 (bbl 4).length = u4 at *
  obtain ⟨x1, x2, x3, x4, x5, e1, e2, e3, e4, e5, hred⟩ :=
    redistribute_spec (availCounts bbl) ⟨u1, u2, u3, u4, 0⟩
      (20 - (⟨u1, u2, u3, u4, 0⟩ : BoxCounts).total)
  simp only [BoxCounts_mk_b1, BoxCounts_mk_b2, BoxCounts_mk_b3, BoxCounts_mk_b4,
    BoxCounts_mk_b5, BoxCounts_mk_total, availCounts] at e1 e2 e3 e4 e5
  have hcond : (⟨u1, u2, u3, u4, 0⟩ : BoxCounts).total < 20 := by
    simp only [BoxCounts_mk_total]
    omega
  obtain ⟨hx5, hxsum, hxd1, hxd2, hxd3, hxd4⟩ :=
    backfill_exhaust (20 - (u1 + u2 + u3 + u4 + 0)) ((bbl 1).length - u1)
      ((bbl 2).length - u2) ((bbl 3).length - u3) ((bbl 4).length - u4)
      ((bbl 5).length - 0) x1 x2 x3 x4 x5 e1 e2 e3 e4 e5 (by omega)
  clear e1 e2 e3 e4 e5
  rw [targetCounts, hw, if_pos hcond, hred]
  simp only [BoxCounts_mk_b1, BoxCounts_mk_b2, BoxCounts_mk_b3, BoxCounts_mk_b4,
    BoxCounts_mk_b5, availCounts]
  refine ⟨u1 + x1, u2 + x2, u3 + x3, u4 + x4, 0 + x5, rfl, by omega, by omega, by omega,
    by omega, by omega, by omega, by omega, by omega⟩

theorem targetCounts_eq_avail (bbl : Nat → List LeitnerBox) (count : Nat)
    (h : (availCounts bbl).total ≤ count) :
    targetCounts bbl count = availCounts bbl := by
  have hv1 : min (count * 50 / 100) (bbl 1).length ≤ (bbl 1).length := min_le_right _ _
  have hv2 : min (count * 25 / 100) (bbl 2).length ≤ (bbl 2).length := min_le_right _ _
  have hv3 : min (count * 15 / 100) (bbl 3).length ≤ (bbl 3).length := min_le_right _ _
  have hv4 : min (count * 7 / 100) (bbl 4).length ≤ (bbl 4).length := min_le_right _ _
  have hv5 : min (count * 3 / 100) (bbl 5).length ≤ (bbl 5).length := min_le_right _ _
  have hav : availCounts bbl =
      ⟨(bbl 1).length, (bbl 2).length, (bbl 3).length, (bbl 4).length,
        (bbl 5).length⟩ := rfl
  have hit : initialTargets bbl count =
      ⟨min (count * 50 / 100) (bbl 1).length, min (count * 25 / 100) (bbl 2).length,
        min (count * 15 / 100) (bbl 3).length, min (count * 7 / 100) (bbl 4).length,
        min (count * 3 / 100) (bbl 5).length⟩ := rfl
  simp only [hav, BoxCounts_mk_total] at h
  generalize hg1 : min (count * 50 / 100) (bbl 1).length = u1 at *
  generalize hg2 : min (count * 25 / 100) (bbl 2).length = u2 at *
  generalize hg3 : min (count * 15 / 100) (bbl 3).length = u3 at *
  generalize hg4 : min (count * 7 / 100) (bbl 4).length = u4 at *
  generalize hg5 : min (count * 3 / 100) (bbl 5).length = u5 at *
  rw [targetCounts, hit, hav]
  split
  case isTrue hcond =>
    rw [BoxCounts_mk_total] at hcond
    obtain ⟨x1, x2, x3, x4, x5, e1, e2, e3, e4, e5, hred⟩ :=
      redistribute_spec ⟨(bbl 1).length, (bbl 2).length, (bbl 3).length, (bbl 4).length,
        (bbl 5).length⟩ ⟨u1, u2, u3, u4, u5⟩
        (count - (⟨u1, u2, u3, u4, u5⟩ : BoxCounts).total)
    simp only [BoxCounts_mk_b1, BoxCounts_mk_b2, BoxCounts_mk_b3, BoxCounts_mk_b4,
      BoxCounts_mk_b5, BoxCounts_mk_total] at e1 e2 e3 e4 e5
    obtain ⟨hq1, hq2, hq3, hq4, hq5⟩ :=
      backfill_fill (count - (u1 + u2 + u3 + u4 + u5)) ((bbl 1).length - u1)
        ((bbl 2).length - u2) ((bbl 3).length - u3) ((bbl 4).length - u4)
        ((bbl 5).length - u5) x1 x2 x3 x4 x5 e1 e2 e3 e4 e5 (by omega)
    clear e1 e2 e3 e4 e5
    rw [hred]
    simp only [BoxCounts_mk_b1, BoxCounts_mk_b2, BoxCounts_mk_b3, BoxCounts_mk_b4,
      BoxCounts_mk_b5]
    exact BoxCounts_mk_congr (by omega) (by omega) (by omega) (by omega) (by omega)
  case isFalse hcond =>
    rw [BoxCounts_mk_total] at hcond
    exact BoxCounts_mk_congr (by omega) (by omega) (by omega) (by omega) (by omega)

/-- Sizes: each per-level draw has exactly the target size once the target
is known to fit availability. -/
theorem selectionParts_length_of (rng : Nat → Nat → Nat) (bbl : Nat → List LeitnerBox)
    (count t1 t2 t3 t4 t5 : Nat) (ht : targetCounts bbl count = ⟨t1, t2, t3, t4, t5⟩)
    (h1 : t1 ≤ (bbl 1).length) (h2 : t2 ≤ (bbl 2).length) (h3 : t3 ≤ (bbl 3).length)
    (h4 : t4 ≤ (bbl 4).length) (h5 : t5 ≤ (bbl 5).length) :
    (selectionParts rng bbl count).length = t1 + t2 + t3 + t4 + t5 := by
  simp only [selectionParts, List.length_append, drawSample_length, ht, BoxCounts_mk_b1,
    BoxCounts_mk_b2, BoxCounts_mk_b3, BoxCounts_mk_b4, BoxCounts_mk_b5]
  rw [min_eq_left (min_le_right t1 (bbl 1).length), min_eq_left h1,
    min_eq_left (min_le_right t2 (bbl 2).length), min_eq_left h2,
    min_eq_left (min_le_right t3 (bbl 3).length), min_eq_left h3,
    min_eq_left (min_le_right t4 (bbl 4).length), min_eq_left h4,
    min_eq_left (min_le_right t5 (bbl 5).length), min_eq_left h5]
  omega

/-! Selection respects the inventory projection the scheduler reads. -/

theorem boxesByLevel_map_stripReview (boxes : List LeitnerBox) (level : Nat) :
    boxesByLevel (boxes.map stripReview) level =
      (boxesByLevel boxes level).map stripReview := by
  simp only [boxesByLevel]
  rw [List.map_filter]
  rfl

theorem targetCounts_map_stripReview (bbl : Nat → List LeitnerBox) (count : Nat) :
    targetCounts (fun l => (bbl l).map stripReview) count = targetCounts bbl count := by
  simp only [targetCounts, initialTargets, availCounts, List.length_map]

theorem selectionParts_map_stripReview (rng : Nat → Nat → Nat)
    (bbl : Nat → List LeitnerBox) (count : Nat) :
    selectionParts rng (fun l => (bbl l).map stripReview) count =
      (selectionParts rng bbl count).map stripReview := by
  simp only [selectionParts, targetCounts_map_stripReview, List.length_map,
    drawSample_map, List.map_append]

theorem select_map_stripReview (rng : Nat → Nat → Nat) (bbl : Nat → List LeitnerBox)
    (count : Nat) :
    select_questions_by_probability rng (fun l => (bbl l).map stripReview) count =
      (select_questions_by_probability rng bbl count).map stripReview := by
  simp only [select_questions_by_probability, selectionParts_map_stripReview,
    shuffleModel_map, List.map_take]
  have hav : availCounts (fun l => (bbl l).map stripReview) = availCounts bbl := by
    simp only [availCounts, List.length_map]
  rw [hav]
  split <;> simp

/-! The three scheduler claims. -/

/-- C1: the Box Scheduler computes floor-weighted targets
(weights 0.50/0.25/0.15/0.07/0.03) capped at availability and backfills
the shortfall walking levels 1 to 5 in ascending order; consequently on an
inventory holding at least 5 questions in every box, a request for 20
returns exactly 20 questions and draws at least as many questions from
box 1 as from box 5. -/
theorem C1_scheduler_weighted_selection (rng : Nat → Nat → Nat) (boxes : List LeitnerBox)
    (h1 : 5 ≤ (boxesByLevel boxes 1).length) (h2 : 5 ≤ (boxesByLevel boxes 2).length)
    (h3 : 5 ≤ (boxesByLevel boxes 3).length) (h4 : 5 ≤ (boxesByLevel boxes 4).length)
    (h5 : 5 ≤ (boxesByLevel boxes 5).length) :
    (select_questions_by_probability rng (boxesByLevel boxes) 20).length = 20 ∧
    (select_questions_by_probability rng (boxesByLevel boxes) 20).countP
        (fun b => b.box_level == 5) ≤
      (select_questions_by_probability rng (boxesByLevel boxes) 20).countP
        (fun b => b.box_level == 1) := by
  obtain ⟨t1, t2, t3, t4, t5, ht, hl1, hl2, hl3, hl4, hl5, hsum, ht5, ht1⟩ :=
    targetCounts_spec_20 (boxesByLevel boxes) h1 h2 h3 h4 h5
  have hplen := selectionParts_length_of rng (boxesByLevel boxes) 20 t1 t2 t3 t4 t5 ht
    hl1 hl2 hl3 hl4 hl5
  have htotal : ¬(availCounts (boxesByLevel boxes)).total = 0 := by
    simp only [availCounts, BoxCounts_mk_total]
    omega
  have hshuffle := shuffleModel_perm (rng 6) (selectionParts rng (boxesByLevel boxes) 20)
  have hlen : (shuffleModel (rng 6) (selectionParts rng (boxesByLevel boxes) 20)).length
      = 20 := by
    rw [hshuffle.length_eq, hplen]
    omega
  have htake : (shuffleModel (rng 6) (selectionParts rng (boxesByLevel boxes) 20)).take 20
      = shuffleModel (rng 6) (selectionParts rng (boxesByLevel boxes) 20) :=
    List.take_all_of_le (le_of_eq hlen)
  have hmem5 : ∀ b ∈ selectionParts rng (boxesByLevel boxes) 20,
      ¬(b.box_level == 5) = true := by
    intro b hb
    simp only [selectionParts, List.mem_append] at hb
    rcases hb with hb | hb | hb | hb | hb
    · rw [mem_boxesByLevel_level (mem_of_mem_drawSample hb)]
      simp
    · rw [mem_boxesByLevel_level (mem_of_mem_drawSample hb)]
      simp
    · rw [mem_boxesByLevel_level (mem_of_mem_drawSample hb)]
      simp
    · rw [mem_boxesByLevel_level (mem_of_mem_drawSample hb)]
      simp
    · rw [ht] at hb
      simp only [BoxCounts_mk_b5, ht5, Nat.zero_min] at hb
      simp only [drawSample] at hb
      exact absurd hb (List.not_mem_nil b)
  rw [select_questions_by_probability, if_neg htotal, htake]
  refine ⟨hlen, ?_⟩
  rw [hshuffle.countP_eq, hshuffle.countP_eq, List.countP_eq_zero.mpr hmem5]
  exact Nat.zero_le _

/-- C2: over a totally empty inventory a Leitner session fails with the
no-questions error; over a non-empty inventory smaller than the requested
count, the session starts and returns exactly the available questions
(a permutation of the inventory: no duplicates, nothing fabricated). -/
theorem C2_empty_and_short_inventory (rng : Nat → Nat → Nat) (count : Nat)
    (hc : count ∈ VALID_QUESTION_COUNTS) (boxes : List LeitnerBox)
    (hne : boxes ≠ []) (hlv : ∀ b ∈ boxes, 1 ≤ b.box_level ∧ b.box_level ≤ 5)
    (hshort : boxes.length < count) :
    start_leitner_session rng true [] count = .error .leitnerNoQuestions ∧
    ∃ sel, start_leitner_session rng true boxes count = .ok (sel, boxes.length) ∧
      sel.Perm boxes ∧
      ((boxes.map (fun b => b.question_id)).Nodup →
        (sel.map (fun b => b.question_id)).Nodup) := by
  have hcontains : VALID_QUESTION_COUNTS.contains count = true :=
    List.elem_eq_true_of_mem hc
  constructor
  · rw [start_leitner_session, hcontains]
    rfl
  · have hne' : boxes.isEmpty = false := List.isEmpty_eq_false.mpr hne
    have hperm0 := perm_boxesByLevel_concat boxes hlv
    have htotal : (availCounts (boxesByLevel boxes)).total = boxes.length := by
      have hl := hperm0.length_eq
      simp only [List.length_append] at hl
      simp only [availCounts, BoxCounts_mk_total]
      omega
    have htarget : targetCounts (boxesByLevel boxes) count =
        ⟨(boxesByLevel boxes 1).length, (boxesByLevel boxes 2).length,
          (boxesByLevel boxes 3).length, (boxesByLevel boxes 4).length,
          (boxesByLevel boxes 5).length⟩ :=
      targetCounts_eq_avail (boxesByLevel boxes) count (by rw [htotal]; omega)
    have hs1 : (drawSample (rng 1) 0 (boxesByLevel boxes 1)
        (min (targetCounts (boxesByLevel boxes) count).b1
          (boxesByLevel boxes 1).length)).Perm (boxesByLevel boxes 1) := by
      rw [htarget, BoxCounts_mk_b1, min_self]
      exact drawSample_perm_aux _ _ _ _ rfl
    have hs2 : (drawSample (rng 2) 0 (boxesByLevel boxes 2)
        (min (targetCounts (boxesByLevel boxes) count).b2
          (boxesByLevel boxes 2).length)).Perm (boxesByLevel boxes 2) := by
      rw [htarget, BoxCounts_mk_b2, min_self]
      exact drawSample_perm_aux _ _ _ _ rfl
    have hs3 : (drawSample (rng 3) 0 (boxesByLevel boxes 3)
        (min (targetCounts (boxesByLevel boxes) count).b3
          (boxesByLevel boxes 3).length)).Perm (boxesByLevel boxes 3) := by
      rw [htarget, BoxCounts_mk_b3, min_self]
      exact drawSample_perm_aux _ _ _ _ rfl
    have hs4 : (drawSample (rng 4) 0 (boxesByLevel boxes 4)
        (min (targetCounts (boxesByLevel boxes) count).b4
          (boxesByLevel boxes 4).length)).Perm (boxesByLevel boxes 4) := by
      rw [htarget, BoxCounts_mk_b4, min_self]
      exact drawSample_perm_aux _ _ _ _ rfl
    have hs5 : (drawSample (rng 5) 0 (boxesByLevel boxes 5)
        (min (targetCounts (boxesByLevel boxes) count).b5
          (boxesByLevel boxes 5).length)).Perm (boxesByLevel boxes 5) := by
      rw [htarget, BoxCounts_mk_b5, min_self]
      exact drawSample_perm_aux _ _ _ _ rfl
    have hparts : (selectionParts rng (boxesByLevel boxes) count).Perm boxes := by
      simp only [selectionParts]
      exact (hs1.append (hs2.append (hs3.append (hs4.append hs5)))).trans hperm0
    have hshuffle := shuffleModel_perm (rng 6)
      (selectionParts rng (boxesByLevel boxes) count)
    have hsel : (shuffleModel (rng 6)
        (selectionParts rng (boxesByLevel boxes) count)).Perm boxes :=
      hshuffle.trans hparts
    have hlen : (shuffleModel (rng 6)
        (selectionParts rng (boxesByLevel boxes) count)).length = boxes.length :=
      hsel.length_eq
    have htake : (shuffleModel (rng 6)
          (selectionParts rng (boxesByLevel boxes) count)).take count
        = shuffleModel (rng 6) (selectionParts rng (boxesByLevel boxes) count) :=
      List.take_all_of_le (by omega)
    have hpos : 0 < boxes.length := List.length_pos.mpr hne
    have hsellen : (select_questions_by_probability rng (boxesByLevel boxes) count).length
        = boxes.length := by
      rw [select_questions_by_probability, if_neg (by omega), htake]
      exact hlen
    refine ⟨select_questions_by_probability rng (boxesByLevel boxes) count, ?_, ?_, ?_⟩
    · rw [start_leitner_session, hcontains, hsellen]
      rw [if_neg (by decide), if_neg (by decide), if_neg (by simp [hne']),
        if_pos hshort, if_neg (by omega)]
    · rw [select_questions_by_probability, if_neg (by omega), htake]
      exact hsel
    · intro hnodup
      rw [select_questions_by_probability, if_neg (by omega), htake]
      exact (hsel.map (fun b => b.question_id)).nodup_iff.mpr hnodup

/-- C10: the scheduler's selection is independent of last_reviewed_at —
two inventories equal after forgetting that timestamp yield, for the same
rng, selections with identical question ids and box levels; there is no
recency cooldown. -/
theorem C10_selection_ignores_recency (rng : Nat → Nat → Nat) (count : Nat)
    (xs ys : List LeitnerBox) (h : xs.map stripReview = ys.map stripReview) :
    (select_questions_by_probability rng (boxesByLevel xs) count).map
        (fun b => (b.question_id, b.box_level)) =
      (select_questions_by_probability rng (boxesByLevel ys) count).map
        (fun b => (b.question_id, b.box_level)) := by
  have key : ∀ zs : List LeitnerBox,
      (select_questions_by_probability rng (boxesByLevel (zs.map stripReview)) count).map
          (fun b => (b.question_id, b.box_level)) =
        (select_questions_by_probability rng (boxesByLevel zs) count).map
          (fun b => (b.question_id, b.box_level)) := by
    intro zs
    have hbb : boxesByLevel (zs.map stripReview) =
        fun l => (boxesByLevel zs l).map stripReview :=
      funext (boxesByLevel_map_stripReview zs)
    rw [hbb, select_map_stripReview, List.map_map]
    rfl
  rw [← key xs, ← key ys, h]

/-- Witness: C1 instantiated on a concrete 25-entry inventory (5 per box)
with a concrete rng. -/
theorem C1_scheduler_weighted_selection_witness :
    (5 ≤ (boxesByLevel c1Boxes 1).length ∧ 5 ≤ (boxesByLevel c1Boxes 2).length ∧
      5 ≤ (boxesByLevel c1Boxes 3).length ∧ 5 ≤ (boxesByLevel c1Boxes 4).length ∧
      5 ≤ (boxesByLevel c1Boxes 5).length) ∧
    ((select_questions_by_probability zeroRng (boxesByLevel c1Boxes) 20).length = 20 ∧
      (select_questions_by_probability zeroRng (boxesByLevel c1Boxes) 20).countP
          (fun b => b.box_level == 5) ≤
        (select_questions_by_probability zeroRng (boxesByLevel c1Boxes) 20).countP
          (fun b => b.box_level == 1)) :=
  ⟨⟨by decide, by decide, by decide, by decide, by decide⟩,
    C1_scheduler_weighted_selection zeroRng c1Boxes (by decide) (by decide) (by decide)
      (by decide) (by decide)⟩

/-- Witness: C2 instantiated on three box-1 entries and requested count 10. -/
theorem C2_empty_and_short_inventory_witness :
    (10 ∈ VALID_QUESTION_COUNTS ∧ c2Boxes ≠ [] ∧
      (∀ b ∈ c2Boxes, 1 ≤ b.box_level ∧ b.box_level ≤ 5) ∧ c2Boxes.length < 10) ∧
    (start_leitner_session zeroRng true [] 10 = .error .leitnerNoQuestions ∧
      ∃ sel, start_leitner_session zeroRng true c2Boxes 10 = .ok (sel, c2Boxes.length) ∧
        sel.Perm c2Boxes ∧
        ((c2Boxes.map (fun b => b.question_id)).Nodup →
          (sel.map (fun b => b.question_id)).Nodup)) :=
  ⟨⟨by decide, by decide, by decide, by decide⟩,
    C2_empty_and_short_inventory zeroRng 10 (by decide) c2Boxes (by decide) (by decide)
      (by decide)⟩

/-- Witness: C10 instantiated on two single-entry inventories that differ
only in last_reviewed_at. -/
theorem C10_selection_ignores_recency_witness :
    c10BoxesA.map stripReview = c10BoxesB.map stripReview ∧
    (select_questions_by_probability zeroRng (boxesByLevel c10BoxesA) 5).map
        (fun b => (b.question_id, b.box_level)) =
      (select_questions_by_probability zeroRng (boxesByLevel c10BoxesB) 5).map
        (fun b => (b.question_id, b.box_level)) :=
  ⟨rfl, C10_selection_ignores_recency zeroRng 5 c10BoxesA c10BoxesB rfl⟩

/-! Answer evaluator lemmas and claims. -/

theorem setEq_nil_left (l : List String) : setEq [] l = l.isEmpty := by
  cases l <;> simp [setEq]

theorem dictEq_nil_left (l : List (String × String)) : dictEq [] l = l.isEmpty := by
  cases l <;> simp [dictEq, dictLookup]

theorem pyLower_ne_empty {s : String} (h : s ≠ "") : pyLower s ≠ "" := by
  intro hc
  apply h
  rw [pyLower] at hc
  have hdata : s.data.map Char.toLower = [] := congrArg String.data hc
  have hnil : s.data = [] := List.map_eq_nil_iff.mp hdata
  cases s
  simp_all

/-- C4 counterexample: a TEXT question with ignore_spelling_errors = true
and a submission at Levenshtein distance 1 (hence ≤ 2) from the accepted
answer evaluates to false — the claimed spelling tolerance does not hold
on the code, which compares strings exactly and never reads the flag. -/
theorem C4_counterexample :
    (mkTextQuestion ⟨"abc", false, true⟩).type = QuestionType.TEXT ∧
    ((mkTextQuestion ⟨"abc", false, true⟩).text_config.map
        (fun c => c.ignore_spelling_errors)) = some true ∧
    levenshtein "axc" "abc" ≤ 2 ∧
    evaluate_answer (mkTextQuestion ⟨"abc", false, true⟩) (textPayload "axc") =
      .ok false :=
  ⟨rfl, rfl, by decide, rfl⟩

/-- C4 amended: for every TEXT question, evaluation is exact string
comparison after strip and (unless caseSensitive) lower-casing, and the
ignore_spelling_errors flag has no effect on the verdict; no Levenshtein
tolerance is applied. -/
theorem C4_text_exact_match (cfg : TextConfig) (submission : String) :
    (evaluate_answer (mkTextQuestion cfg) (textPayload submission) = .ok true ↔
      (if cfg.is_case_sensitive then pyStrip submission = pyStrip cfg.accepted_answer
        else pyLower (pyStrip submission) = pyLower (pyStrip cfg.accepted_answer))) ∧
    evaluate_answer (mkTextQuestion { cfg with ignore_spelling_errors := true })
        (textPayload submission) =
      evaluate_answer (mkTextQuestion { cfg with ignore_spelling_errors := false })
        (textPayload submission) := by
  constructor
  · cases hcs : cfg.is_case_sensitive <;>
      simp [evaluate_answer, mkTextQuestion, textPayload, hcs]
  · rfl

/-- C9 counterexample: on a TEXT question, a payload whose text_answer is
an explicit JSON null makes evaluation raise AttributeError
(None.strip()), contradicting the claim that missing or null fields
always evaluate to false without raising. -/
theorem C9_counterexample :
    evaluate_answer (mkTextQuestion ⟨"abc", false, true⟩) nullTextPayload =
      .error .attributeError := rfl

/-- C9 amended: evaluation is pure (the question is never mutated), and on
every well-formed question a payload with all fields absent evaluates to
false without raising; an explicit null in selected_option_ids (QCM) or
text_answer (TEXT) raises TypeError / AttributeError instead of returning
false. -/
theorem C9_missing_fields_evaluate_false (q : Question)
    (hq : wellFormedQuestion q = true) :
    evaluate_answer q emptyPayload = .ok false ∧
    (q.type = .TEXT → evaluate_answer q nullTextPayload = .error .attributeError) ∧
    (q.type = .QCM → evaluate_answer q nullIdsPayload = .error .typeError) := by
  refine ⟨?_, fun htype => by simp [evaluate_answer, htype, nullTextPayload, emptyPayload],
    fun htype => by simp [evaluate_answer, htype, nullIdsPayload, emptyPayload]⟩
  cases htype : q.type
  case QCM =>
    simp only [wellFormedQuestion, htype, Bool.not_eq_true'] at hq
    simp only [evaluate_answer, htype, emptyPayload, setEq_nil_left]
    cases hfil : q.options.filter (fun o => o.is_correct) with
    | nil => rw [hfil] at hq; simp at hq
    | cons o os => simp [hfil]
  case VRAI_FAUX =>
    simp only [wellFormedQuestion, htype, decide_eq_true_eq] at hq
    simp only [evaluate_answer, htype, emptyPayload]
    cases hfil : q.options.filter (fun o => o.is_correct) with
    | nil => rfl
    | cons o os =>
      cases os with
      | nil => rfl
      | cons o2 os2 => rw [hfil] at hq; simp at hq
  case MATCHING =>
    simp only [wellFormedQuestion, htype, decide_eq_true_eq] at hq
    simp only [evaluate_answer, htype, emptyPayload, dictEq_nil_left]
    cases hfil : q.matching_pairs with
    | nil => rw [hfil] at hq; simp at hq
    | cons p ps => simp [hfil]
  case IMAGE =>
    simp only [wellFormedQuestion, htype, Bool.not_eq_true'] at hq
    simp only [evaluate_answer, htype, emptyPayload, zoneFallback, setEq_nil_left]
    cases hz : q.image_zones with
    | nil => rw [hz] at hq; simp at hq
    | cons z zs => simp [hz]
  case TEXT =>
    simp only [wellFormedQuestion, htype] at hq
    simp only [evaluate_answer, htype, emptyPayload]
    cases hcfg : q.text_config with
    | none => rfl
    | some cfg =>
      rw [hcfg] at hq
      simp only [Option.all_some, Bool.not_eq_true'] at hq
      have hne : pyStrip cfg.accepted_answer ≠ "" := by
        intro hc
        rw [hc] at hq
        simp at hq
      cases hcs : cfg.is_case_sensitive
      · have hl : (pyLower (pyStrip "") == pyLower (pyStrip cfg.accepted_answer)) =
            false :=
          beq_false_of_ne fun hcontra =>
            (pyLower_ne_empty hne) (by rw [← hcontra]; rfl)
        simp [hcs, hl]
      · have hl : (pyStrip "" == pyStrip cfg.accepted_answer) = false :=
          beq_false_of_ne fun hcontra => hne (by rw [← hcontra]; rfl)
        simp [hcs, hl]

/-- Witness: C9 amended instantiated on a well-formed TEXT question. -/
theorem C9_missing_fields_evaluate_false_witness :
    wellFormedQuestion (mkTextQuestion ⟨"abc", false, true⟩) = true ∧
    (evaluate_answer (mkTextQuestion ⟨"abc", false, true⟩) emptyPayload = .ok false ∧
      ((mkTextQuestion ⟨"abc", false, true⟩).type = .TEXT →
        evaluate_answer (mkTextQuestion ⟨"abc", false, true⟩) nullTextPayload =
          .error .attributeError) ∧
      ((mkTextQuestion ⟨"abc", false, true⟩).type = .QCM →
        evaluate_answer (mkTextQuestion ⟨"abc", false, true⟩) nullIdsPayload =
          .error .typeError)) :=
  ⟨by decide, C9_missing_fields_evaluate_false (mkTextQuestion ⟨"abc", false, true⟩)
    (by decide)⟩

/-! Prerequisite cycle claims. -/

/-- C8: a self-referential prerequisite is rejected with
CIRCULAR_PREREQUISITE before any graph access; the walk fails closed at
fuel 0 (depth bound 50 exceeded) and on revisiting a visited node; setting
A's prerequisite to B when B already depends on A is rejected; and a
60-long acyclic chain already trips the fail-closed depth bound. -/
theorem C8_circular_prerequisite (quizzes : List Quiz) (quiz_id : String)
    (rest : List String) (fuel : Nat)
    (hq : (quizzes.find? (fun q => q.id == quiz_id)).isSome = true) :
    update_quiz_prerequisite quizzes quiz_id quiz_id = .error .circularPrerequisite ∧
    hasCircularFrom quizzes 0 rest quiz_id = true ∧
    hasCircularFrom quizzes (fuel + 1) (quiz_id :: rest) quiz_id = true ∧
    update_quiz_prerequisite c8Quizzes "quizA" "quizB" = .error .circularPrerequisite ∧
    has_circular_quiz_prerequisite (chainQuizzes 60) "0" = true := by
  refine ⟨?_, rfl, ?_, rfl, by decide⟩
  · rw [update_quiz_prerequisite]
    rw [if_neg (fun h => by rw [Option.isNone_iff_eq_none.mp h] at hq; simp at hq)]
    rw [if_pos (by simp)]
  · simp [hasCircularFrom]

/-- Witness: C8 instantiated on the concrete two-quiz fixture. -/
theorem C8_circular_prerequisite_witness :
    (c8Quizzes.find? (fun q => q.id == "quizA")).isSome = true ∧
    (update_quiz_prerequisite c8Quizzes "quizA" "quizA" = .error .circularPrerequisite ∧
      hasCircularFrom c8Quizzes 0 [] "quizA" = true ∧
      hasCircularFrom c8Quizzes 1 ["quizA"] "quizA" = true ∧
      update_quiz_prerequisite c8Quizzes "quizA" "quizB" = .error .circularPrerequisite ∧
      has_circular_quiz_prerequisite (chainQuizzes 60) "0" = true) :=
  ⟨by decide, C8_circular_prerequisite c8Quizzes "quizA" [] 0 (by decide)⟩

/-! Row update / lookup lemmas. -/

theorem find?_updateFirst_same {α : Type} (p : α → Bool) (f : α → α) (l : List α)
    (hf : ∀ x, p x = true → p (f x) = true) :
    (updateFirst p f l).find? p = (l.find? p).map f := by
  induction l with
  | nil => rfl
  | cons x xs ih =>
    by_cases hx : p x = true
    · simp [updateFirst, hx, List.find?_cons, hf x hx]
    · simp only [Bool.not_eq_true] at hx
      simp [updateFirst, hx, List.find?_cons, ih]

theorem find?_updateFirst_other {α : Type} (p q : α → Bool) (f : α → α) (l : List α)
    (hpq : ∀ x, q x = true → p x = false) (hfp : ∀ x, p (f x) = p x) :
    (updateFirst q f l).find? p = l.find? p := by
  induction l with
  | nil => rfl
  | cons x xs ih =>
    by_cases hx : q x = true
    · simp [updateFirst, hx, List.find?_cons, hfp x, hpq x hx]
    · simp only [Bool.not_eq_true] at hx
      simp only [updateFirst, hx, if_false, List.find?_cons]
      by_cases hpx : p x = true
      · simp [hpx]
      · simp only [Bool.not_eq_true] at hpx
        simp [hpx, ih]

/-- complete_quiz never touches sessions, answers, questions, quizzes or
the Leitner session tables. -/
theorem complete_quiz_frame (db : Db) (quiz_id student_id classroom_id : String) :
    (complete_quiz db quiz_id student_id classroom_id).sessions = db.sessions ∧
    (complete_quiz db quiz_id student_id classroom_id).session_answers =
      db.session_answers ∧
    (complete_quiz db quiz_id student_id classroom_id).questions = db.questions ∧
    (complete_quiz db quiz_id student_id classroom_id).quizzes = db.quizzes ∧
    (complete_quiz db quiz_id student_id classroom_id).leitner_sessions =
      db.leitner_sessions ∧
    (complete_quiz db quiz_id student_id classroom_id).leitner_answers =
      db.leitner_answers := by
  simp only [complete_quiz, check_module_completion]
  split <;> split <;> (try split) <;> (try split) <;> simp_all

/-- Evaluating the first finish call on a live session. -/
theorem finish_session_eq (db : Db) (now : Nat) (sid uid : String)
    (session : QuizSession) (quiz : Quiz)
    (hs : findSession db sid = some session)
    (hown : session.student_id = uid)
    (hprog : session.status = .IN_PROGRESS)
    (hq : findQuiz db session.quiz_id = some quiz) :
    finish_session db now sid uid =
      (finishedDb db now sid uid session quiz,
        .ok (finishedSession db now sid session quiz)) := by
  simp only [finish_session, hs, hq, hown, hprog]
  simp

/-- A terminal session makes finish_session reject without touching the
state. -/
theorem finish_session_terminal (db : Db) (now : Nat) (sid uid : String)
    (session : QuizSession)
    (hs : findSession db sid = some session)
    (hown : session.student_id = uid)
    (hterm : session.status ≠ .IN_PROGRESS) :
    finish_session db now sid uid = (db, .error .sessionAlreadyFinished) := by
  simp only [finish_session, hs, hown, hterm]
  simp
  exact fun h => absurd h hterm

/-- Evaluating the first Leitner finish call on an open session. -/
theorem finish_leitner_session_eq (db : Db) (now : Nat) (sid uid : String)
    (session : LeitnerSession)
    (hs : findLeitnerSession db sid = some session)
    (hown : session.student_id = uid)
    (hopen : session.completed_at = none) :
    finish_leitner_session db now sid uid =
      (leitnerFinishedDb db now sid uid session,
        .ok (leitnerFinishedSession db now sid uid session)) := by
  simp only [finish_leitner_session, hs, hown, hopen]
  simp

/-- A completed Leitner session makes finish reject without touching the
state. -/
theorem finish_leitner_session_terminal (db : Db) (now : Nat) (sid uid : String)
    (session : LeitnerSession)
    (hs : findLeitnerSession db sid = some session)
    (hown : session.student_id = uid)
    (hdone : session.completed_at.isSome = true) :
    finish_leitner_session db now sid uid = (db, .error .sessionAlreadyFinished) := by
  simp only [finish_leitner_session, hs, hown, hdone]
  simp

theorem findSession_finishedDb (db : Db) (now : Nat) (sid uid : String)
    (session : QuizSession) (quiz : Quiz)
    (hs : findSession db sid = some session) :
    findSession (finishedDb db now sid uid session quiz) sid =
      some (finishedSession db now sid session quiz) := by
  have hs' : db.sessions.find? (fun s => s.id == sid) = some session := hs
  have hpid0 := List.find?_some hs'
  have hpid : (session.id == sid) = true := hpid0
  have hup : (updateFirst (fun s => s.id == sid)
      (fun _ => finishedSession db now sid session quiz) db.sessions).find?
      (fun s => s.id == sid) = some (finishedSession db now sid session quiz) := by
    rw [find?_updateFirst_same (fun s => s.id == sid)
      (fun _ => finishedSession db now sid session quiz) db.sessions
      (fun x hx => hpid), hs']
    rfl
  rw [finishedDb]
  split
  · rw [findSession, (complete_quiz_frame _ _ _ _).1]
    exact hup
  · exact hup

theorem findLeitnerSession_finishedDb (db : Db) (now : Nat) (sid uid : String)
    (session : LeitnerSession)
    (hs : findLeitnerSession db sid = some session) :
    findLeitnerSession (leitnerFinishedDb db now sid uid session) sid =
      some (leitnerFinishedSession db now sid uid session) := by
  have hs' : db.leitner_sessions.find? (fun s => s.id == sid) = some session := hs
  have hpid0 := List.find?_some hs'
  have hpid : (session.id == sid) = true := hpid0
  show (leitnerFinishedDb db now sid uid session).leitner_sessions.find?
    (fun s => s.id == sid) = _
  rw [leitnerFinishedDb]
  rw [show ({ db with
      leitner_boxes := (applyBoxTransitions session.classroom_id uid now
        (db.leitner_answers.filter (fun a => a.session_id == sid)) db.leitner_boxes),
      leitner_sessions := (updateFirst (fun s => s.id == sid)
        (fun _ => leitnerFinishedSession db now sid uid session)
        db.leitner_sessions) } : Db).leitner_sessions =
    updateFirst (fun s => s.id == sid)
      (fun _ => leitnerFinishedSession db now sid uid session) db.leitner_sessions
    from rfl]
  rw [find?_updateFirst_same (fun s => s.id == sid)
    (fun _ => leitnerFinishedSession db now sid uid session) db.leitner_sessions
    (fun x hx => hpid), hs']
  rfl

/-- C6: sessions move only forward and terminal states are immutable:
finishing an in-progress session (standard or Leitner) succeeds once,
writing the aggregated score, COMPLETED status and the completion time;
the second finish is rejected with SESSION_ALREADY_FINISHED and returns
the state unchanged, so the stored score, status and completion timestamp
are identical between the two calls. -/
theorem C6_finish_twice (db : Db) (now now2 : Nat) (sid lsid uid : String)
    (session : QuizSession) (quiz : Quiz) (lsession : LeitnerSession)
    (hs : findSession db sid = some session)
    (hown : session.student_id = uid)
    (hprog : session.status = .IN_PROGRESS)
    (hq : findQuiz db session.quiz_id = some quiz)
    (hls : findLeitnerSession db lsid = some lsession)
    (hlown : lsession.student_id = uid)
    (hlopen : lsession.completed_at = none) :
    finish_session db now sid uid =
      (finishedDb db now sid uid session quiz,
        .ok (finishedSession db now sid session quiz)) ∧
    (finishedSession db now sid session quiz).status = .COMPLETED ∧
    (finishedSession db now sid session quiz).completed_at = some now ∧
    (finishedSession db now sid session quiz).total_score = countCorrect db sid ∧
    (finishedSession db now sid session quiz).passed =
      decide (quiz.min_score_to_unlock_next ≤ countCorrect db sid) ∧
    findSession (finishedDb db now sid uid session quiz) sid =
      some (finishedSession db now sid session quiz) ∧
    finish_session (finishedDb db now sid uid session quiz) now2 sid uid =
      (finishedDb db now sid uid session quiz, .error .sessionAlreadyFinished) ∧
    finish_leitner_session db now lsid uid =
      (leitnerFinishedDb db now lsid uid lsession,
        .ok (leitnerFinishedSession db now lsid uid lsession)) ∧
    (leitnerFinishedSession db now lsid uid lsession).completed_at = some now ∧
    findLeitnerSession (leitnerFinishedDb db now lsid uid lsession) lsid =
      some (leitnerFinishedSession db now lsid uid lsession) ∧
    finish_leitner_session (leitnerFinishedDb db now lsid uid lsession) now2 lsid uid =
      (leitnerFinishedDb db now lsid uid lsession, .error .sessionAlreadyFinished) := by
  refine ⟨finish_session_eq db now sid uid session quiz hs hown hprog hq, rfl, rfl, rfl,
    rfl, findSession_finishedDb db now sid uid session quiz hs, ?_,
    finish_leitner_session_eq db now lsid uid lsession hls hlown hlopen, rfl,
    findLeitnerSession_finishedDb db now lsid uid lsession hls, ?_⟩
  · exact finish_session_terminal _ now2 sid uid _
      (findSession_finishedDb db now sid uid session quiz hs) hown
      (by simp [finishedSession])
  · exact finish_leitner_session_terminal _ now2 lsid uid _
      (findLeitnerSession_finishedDb db now lsid uid lsession hls) hlown rfl

/-- Witness: C6 instantiated on a concrete one-session database. -/
theorem C6_finish_twice_witness :
    (findSession c6Db "s1" = some c6Session ∧ c6Session.student_id = "stu1" ∧
      c6Session.status = .IN_PROGRESS ∧ findQuiz c6Db c6Session.quiz_id = some c6Quiz ∧
      findLeitnerSession c6Db "ls1" = some c6LSession ∧
      c6LSession.student_id = "stu1" ∧ c6LSession.completed_at = none) ∧
    (finish_session c6Db 100 "s1" "stu1" =
      (finishedDb c6Db 100 "s1" "stu1" c6Session c6Quiz,
        .ok (finishedSession c6Db 100 "s1" c6Session c6Quiz)) ∧
    (finishedSession c6Db 100 "s1" c6Session c6Quiz).status = .COMPLETED ∧
    (finishedSession c6Db 100 "s1" c6Session c6Quiz).completed_at = some 100 ∧
    (finishedSession c6Db 100 "s1" c6Session c6Quiz).total_score =
      countCorrect c6Db "s1" ∧
    (finishedSession c6Db 100 "s1" c6Session c6Quiz).passed =
      decide (c6Quiz.min_score_to_unlock_next ≤ countCorrect c6Db "s1") ∧
    findSession (finishedDb c6Db 100 "s1" "stu1" c6Session c6Quiz) "s1" =
      some (finishedSession c6Db 100 "s1" c6Session c6Quiz) ∧
    finish_session (finishedDb c6Db 100 "s1" "stu1" c6Session c6Quiz) 200 "s1" "stu1" =
      (finishedDb c6Db 100 "s1" "stu1" c6Session c6Quiz,
        .error .sessionAlreadyFinished) ∧
    finish_leitner_session c6Db 100 "ls1" "stu1" =
      (leitnerFinishedDb c6Db 100 "ls1" "stu1" c6LSession,
        .ok (leitnerFinishedSession c6Db 100 "ls1" "stu1" c6LSession)) ∧
    (leitnerFinishedSession c6Db 100 "ls1" "stu1" c6LSession).completed_at = some 100 ∧
    findLeitnerSession (leitnerFinishedDb c6Db 100 "ls1" "stu1" c6LSession) "ls1" =
      some (leitnerFinishedSession c6Db 100 "ls1" "stu1" c6LSession) ∧
    finish_leitner_session (leitnerFinishedDb c6Db 100 "ls1" "stu1" c6LSession) 200
        "ls1" "stu1" =
      (leitnerFinishedDb c6Db 100 "ls1" "stu1" c6LSession,
        .error .sessionAlreadyFinished)) :=
  ⟨⟨rfl, rfl, rfl, rfl, rfl, rfl, rfl⟩,
    C6_finish_twice c6Db 100 200 "s1" "ls1" "stu1" c6Session c6Quiz c6LSession rfl rfl
      rfl rfl rfl rfl rfl⟩


/-- Appending a row the finder missed: the appended row is found iff it
matches (auto-increment inserts append to the table). -/
theorem find?_append_last {α : Type} (l : List α) (x : α) (p : α → Bool)
    (h : l.find? p = none) (hx : p x = true) : (l ++ [x]).find? p = some x := by
  rw [List.find?_append, h]
  simp [List.find?_cons, hx]

/-- C5: with an existing, owned, unexpired session, submit_answer is
rejected exactly for the three business reasons — terminal session
(SESSION_ALREADY_FINISHED), question outside the session's quiz
(QUESTION_NOT_IN_SESSION), or an already-stored answer for the
(session, question) pair (409 conflict) — and otherwise stores the
verdict; a retry of a stored pair fails with the conflict and leaves the
stored verdict equal to the first verdict, for standard and for Leitner
sessions. -/
theorem C5_submit_rejections (db : Db) (now now2 : Nat) (sid qid uid : String)
    (a a2 : AnswerData) (session : QuizSession)
    (hs : findSession db sid = some session)
    (hown : session.student_id = uid)
    (hfresh : now - session.started_at ≤ 7200) :
    (session.status ≠ .IN_PROGRESS →
      submit_answer db now sid qid a uid = (db, .error .sessionAlreadyFinished)) ∧
    (session.status = .IN_PROGRESS →
      (findQuestion db qid = none →
        submit_answer db now sid qid a uid = (db, .error .questionNotInSession)) ∧
      (∀ question, findQuestion db qid = some question →
        question.quiz_id ≠ session.quiz_id →
        submit_answer db now sid qid a uid = (db, .error .questionNotInSession)) ∧
      (∀ question ans0, findQuestion db qid = some question →
        question.quiz_id = session.quiz_id → findAnswer db sid qid = some ans0 →
        submit_answer db now sid qid a uid = (db, .error .conflict) ∧
        findAnswer (submit_answer db now sid qid a uid).1 sid qid = some ans0) ∧
      (∀ question b, findQuestion db qid = some question →
        question.quiz_id = session.quiz_id → findAnswer db sid qid = none →
        evaluate_answer question a = .ok b → ∀ db1,
        db1 = { db with session_answers := (db.session_answers ++ [⟨sid, qid, b⟩]) } →
        submit_answer db now sid qid a uid = (db1, .ok b) ∧
        (now2 - session.started_at ≤ 7200 →
          submit_answer db1 now2 sid qid a2 uid = (db1, .error .conflict)) ∧
        findAnswer db1 sid qid = some ⟨sid, qid, b⟩)) ∧
    (∀ lsid lqid : String, ∀ lsession : LeitnerSession,
      findLeitnerSession db lsid = some lsession → lsession.student_id = uid →
      lsession.completed_at = none →
      (∀ ans0, findLeitnerAnswer db lsid lqid = some ans0 →
        submit_leitner_answer db lsid lqid a uid = (db, .error .conflict)) ∧
      (∀ question box b, findLeitnerAnswer db lsid lqid = none →
        findQuestion db lqid = some question →
        findLeitnerBox db lsession.classroom_id uid lqid = some box →
        evaluate_answer question a = .ok b → ∀ db1,
        db1 = { db with leitner_answers := (db.leitner_answers ++
          [⟨lsid, lqid, b, box.box_level,
            (if b then min (box.box_level + 1) 5 else 1)⟩]) } →
        submit_leitner_answer db lsid lqid a uid = (db1, .ok b) ∧
        submit_leitner_answer db1 lsid lqid a2 uid = (db1, .error .conflict) ∧
        findLeitnerAnswer db1 lsid lqid = some ⟨lsid, lqid, b, box.box_level,
          (if b then min (box.box_level + 1) 5 else 1)⟩)) := by
  refine ⟨?_, ?_, ?_⟩
  · intro hterm
    simp only [submit_answer, hs]
    rw [if_neg (by simp [hown]), if_pos hterm]
  · intro hprog
    have hnterm : ¬session.status ≠ SessionStatus.IN_PROGRESS := by simp [hprog]
    have hnexp : ¬7200 < now - session.started_at := by omega
    refine ⟨?_, ?_, ?_, ?_⟩
    · intro hqn
      simp only [submit_answer, hs, hqn]
      rw [if_neg (by simp [hown]), if_neg hnterm, if_neg hnexp]
    · intro question hq hne
      simp only [submit_answer, hs, hq]
      rw [if_neg (by simp [hown]), if_neg hnterm, if_neg hnexp, if_pos hne]
    · intro question ans0 hq heq hans
      have hsub : submit_answer db now sid qid a uid = (db, .error .conflict) := by
        simp only [submit_answer, hs, hq, hans]
        rw [if_neg (by simp [hown]), if_neg hnterm, if_neg hnexp,
          if_neg (by simp [heq])]
      exact ⟨hsub, by rw [hsub]; exact hans⟩
    · intro question b hq heq hans hev db1 hdb1
      have hsub : submit_answer db now sid qid a uid = (db1, .ok b) := by
        simp only [submit_answer, hs, hq, hans, hev, hdb1]
        rw [if_neg (by simp [hown]), if_neg hnterm, if_neg hnexp,
          if_neg (by simp [heq])]
      have hES : findSession db1 sid = some session := by rw [hdb1]; exact hs
      have hEQ : findQuestion db1 qid = some question := by rw [hdb1]; exact hq
      have hEA : findAnswer db1 sid qid = some ⟨sid, qid, b⟩ := by
        rw [hdb1]
        show (db.session_answers ++ [(⟨sid, qid, b⟩ : SessionAnswer)]).find?
          (fun x => x.session_id == sid && x.question_id == qid) = some ⟨sid, qid, b⟩
        exact find?_append_last db.session_answers ⟨sid, qid, b⟩
          (fun x => x.session_id == sid && x.question_id == qid) hans (by simp)
      refine ⟨hsub, ?_, hEA⟩
      intro hfresh2
      have hnexp2 : ¬7200 < now2 - session.started_at := by omega
      simp only [submit_answer, hES, hEQ, hEA]
      rw [if_neg (by simp [hown]), if_neg hnterm, if_neg hnexp2,
        if_neg (by simp [heq])]
  · intro lsid lqid lsession hls hlown hlopen
    refine ⟨?_, ?_⟩
    · intro ans0 hdup
      simp only [submit_leitner_answer, hls, hdup]
      rw [if_neg (by simp [hlown]), if_neg (by simp [hlopen])]
    · intro question box b hnone hq hbox hev db1 hdb1
      have hsub : submit_leitner_answer db lsid lqid a uid = (db1, .ok b) := by
        simp only [submit_leitner_answer, hls, hnone, hq, hbox, hev, hdb1]
        rw [if_neg (by simp [hlown]), if_neg (by simp [hlopen])]
      have hLS : findLeitnerSession db1 lsid = some lsession := by rw [hdb1]; exact hls
      have hLA : findLeitnerAnswer db1 lsid lqid = some ⟨lsid, lqid, b, box.box_level,
          (if b then min (box.box_level + 1) 5 else 1)⟩ := by
        rw [hdb1]
        show (db.leitner_answers ++ [(⟨lsid, lqid, b, box.box_level,
            (if b then min (box.box_level + 1) 5 else 1)⟩ : LeitnerAnswer)]).find?
          (fun x => x.session_id == lsid && x.question_id == lqid) = _
        exact find?_append_last db.leitner_answers ⟨lsid, lqid, b, box.box_level,
          (if b then min (box.box_level + 1) 5 else 1)⟩
          (fun x => x.session_id == lsid && x.question_id == lqid) hnone (by simp)
      refine ⟨hsub, ?_, hLA⟩
      simp only [submit_leitner_answer, hLS, hLA]
      rw [if_neg (by simp [hlown]), if_neg (by simp [hlopen])]

/-- Witness: C5 instantiated on a concrete one-session database with a
TEXT question. -/
theorem C5_submit_rejections_witness :
    (findSession c5Db "s5" = some c5Session ∧ c5Session.student_id = "stu1" ∧
      100 - c5Session.started_at ≤ 7200) ∧
    ((c5Session.status ≠ .IN_PROGRESS →
      submit_answer c5Db 100 "s5" "q5" (textPayload "ok") "stu1" =
        (c5Db, .error .sessionAlreadyFinished)) ∧
    (c5Session.status = .IN_PROGRESS →
      (findQuestion c5Db "q5" = none →
        submit_answer c5Db 100 "s5" "q5" (textPayload "ok") "stu1" =
          (c5Db, .error .questionNotInSession)) ∧
      (∀ question, findQuestion c5Db "q5" = some question →
        question.quiz_id ≠ c5Session.quiz_id →
        submit_answer c5Db 100 "s5" "q5" (textPayload "ok") "stu1" =
          (c5Db, .error .questionNotInSession)) ∧
      (∀ question ans0, findQuestion c5Db "q5" = some question →
        question.quiz_id = c5Session.quiz_id →
        findAnswer c5Db "s5" "q5" = some ans0 →
        submit_answer c5Db 100 "s5" "q5" (textPayload "ok") "stu1" =
          (c5Db, .error .conflict) ∧
        findAnswer (submit_answer c5Db 100 "s5" "q5" (textPayload "ok") "stu1").1
          "s5" "q5" = some ans0) ∧
      (∀ question b, findQuestion c5Db "q5" = some question →
        question.quiz_id = c5Session.quiz_id → findAnswer c5Db "s5" "q5" = none →
        evaluate_answer question (textPayload "ok") = .ok b → ∀ db1,
        db1 = { c5Db with
          session_answers := (c5Db.session_answers ++ [⟨"s5", "q5", b⟩]) } →
        submit_answer c5Db 100 "s5" "q5" (textPayload "ok") "stu1" = (db1, .ok b) ∧
        (200 - c5Session.started_at ≤ 7200 →
          submit_answer db1 200 "s5" "q5" (textPayload "no") "stu1" =
            (db1, .error .conflict)) ∧
        findAnswer db1 "s5" "q5" = some ⟨"s5", "q5", b⟩)) ∧
    (∀ lsid lqid : String, ∀ lsession : LeitnerSession,
      findLeitnerSession c5Db lsid = some lsession → lsession.student_id = "stu1" →
      lsession.completed_at = none →
      (∀ ans0, findLeitnerAnswer c5Db lsid lqid = some ans0 →
        submit_leitner_answer c5Db lsid lqid (textPayload "ok") "stu1" =
          (c5Db, .error .conflict)) ∧
      (∀ question box b, findLeitnerAnswer c5Db lsid lqid = none →
        findQuestion c5Db lqid = some question →
        findLeitnerBox c5Db lsession.classroom_id "stu1" lqid = some box →
        evaluate_answer question (textPayload "ok") = .ok b → ∀ db1,
        db1 = { c5Db with leitner_answers := (c5Db.leitner_answers ++
          [⟨lsid, lqid, b, box.box_level,
            (if b then min (box.box_level + 1) 5 else 1)⟩]) } →
        submit_leitner_answer c5Db lsid lqid (textPayload "ok") "stu1" =
          (db1, .ok b) ∧
        submit_leitner_answer db1 lsid lqid (textPayload "no") "stu1" =
          (db1, .error .conflict) ∧
        findLeitnerAnswer db1 lsid lqid = some ⟨lsid, lqid, b, box.box_level,
          (if b then min (box.box_level + 1) 5 else 1)⟩))) :=
  ⟨⟨rfl, rfl, by decide⟩,
    C5_submit_rejections c5Db 100 200 "s5" "q5" "stu1" (textPayload "ok")
      (textPayload "no") c5Session rfl rfl (by decide)⟩

/-- Box rows keyed to a different question are untouched by the finish
loop. -/
theorem applyBoxTransitions_not_mem (c s : String) (now : Nat)
    (l : List LeitnerAnswer) (boxes : List LeitnerBox) (qid : String)
    (h : ∀ x ∈ l, x.question_id ≠ qid) :
    (applyBoxTransitions c s now l boxes).find? (boxKey c s qid) =
      boxes.find? (boxKey c s qid) := by
  induction l generalizing boxes with
  | nil => rfl
  | cons x rest ih =>
    rw [applyBoxTransitions, ih _ (fun y hy => h y (List.mem_cons_of_mem x hy))]
    refine find?_updateFirst_other (boxKey c s qid) (boxKey c s x.question_id)
      _ boxes (fun y hy => ?_) (fun y => rfl)
    simp only [boxKey, Bool.and_eq_true, beq_iff_eq] at hy
    simp only [boxKey, Bool.and_eq_false_iff, beq_eq_false_iff_ne]
    exact Or.inr (hy.2 ▸ h x (List.mem_cons_self x rest))

/-- The finish loop writes exactly the stored new_box (and the review
stamp) onto the live row of each answered question, provided the session
answers one question at most once. -/
theorem applyBoxTransitions_find (c s : String) (now : Nat)
    (l : List LeitnerAnswer) (boxes : List LeitnerBox) (ans : LeitnerAnswer)
    (hmem : ans ∈ l) (hnd : (l.map (fun x => x.question_id)).Nodup) :
    (applyBoxTransitions c s now l boxes).find? (boxKey c s ans.question_id) =
      (boxes.find? (boxKey c s ans.question_id)).map
        (fun b => { b with box_level := ans.new_box, last_reviewed_at := some now }) := by
  induction l generalizing boxes with
  | nil => cases hmem
  | cons x rest ih =>
    rw [List.map_cons, List.nodup_cons] at hnd
    rcases List.mem_cons.mp hmem with heq | hmem2
    · subst heq
      rw [applyBoxTransitions, applyBoxTransitions_not_mem c s now rest _ ans.question_id
        (fun y hy hcontra => hnd.1 (hcontra ▸ List.mem_map_of_mem _ hy))]
      exact find?_updateFirst_same (boxKey c s ans.question_id) _ boxes (fun y hy => hy)
    · rw [applyBoxTransitions, ih _ hmem2 hnd.2]
      have hne : ∀ y, boxKey c s x.question_id y = true →
          boxKey c s ans.question_id y = false := by
        intro y hy
        simp only [boxKey, Bool.and_eq_true, beq_iff_eq] at hy
        simp only [boxKey, Bool.and_eq_false_iff, beq_eq_false_iff_ne]
        refine Or.inr (hy.2 ▸ fun hcontra => hnd.1 (hcontra ▸ ?_))
        exact List.mem_map_of_mem _ hmem2
      rw [find?_updateFirst_other (boxKey c s ans.question_id)
        (boxKey c s x.question_id)
        (fun y => { y with box_level := x.new_box, last_reviewed_at := some now })
        boxes hne (fun y => rfl)]

/-- C3: a submitted Leitner answer stores previous_box from the live box
row and new_box = min(previous_box + 1, 5) when correct / 1 when
incorrect (box 5 is a ceiling, any miss resets fully to box 1), and
finishing the session writes exactly these stored new_box values onto the
live Box Entry rows, stamping the review time. -/
theorem C3_box_transitions (db : Db) (now : Nat) (sid qid uid : String)
    (a : AnswerData) (lsession : LeitnerSession) (question : Question)
    (box : LeitnerBox) (b : Bool)
    (hls : findLeitnerSession db sid = some lsession)
    (hlown : lsession.student_id = uid)
    (hlopen : lsession.completed_at = none)
    (hnone : findLeitnerAnswer db sid qid = none)
    (hq : findQuestion db qid = some question)
    (hbox : findLeitnerBox db lsession.classroom_id uid qid = some box)
    (hev : evaluate_answer question a = .ok b) :
    submit_leitner_answer db sid qid a uid =
      ({ db with leitner_answers := (db.leitner_answers ++
        [⟨sid, qid, b, box.box_level,
          (if b then min (box.box_level + 1) 5 else 1)⟩]) }, .ok b) ∧
    (b = true →
      (if b then min (box.box_level + 1) 5 else 1) = min (box.box_level + 1) 5) ∧
    (b = false → (if b then min (box.box_level + 1) 5 else 1) = 1) ∧
    (b = true → box.box_level = 5 →
      (if b then min (box.box_level + 1) 5 else 1) = 5) ∧
    (∀ ans, ans ∈ db.leitner_answers.filter (fun x => x.session_id == sid) →
      ((db.leitner_answers.filter (fun x => x.session_id == sid)).map
        (fun x => x.question_id)).Nodup →
      (finish_leitner_session db now sid uid).1.leitner_boxes.find?
        (boxKey lsession.classroom_id uid ans.question_id) =
      (db.leitner_boxes.find? (boxKey lsession.classroom_id uid ans.question_id)).map
        (fun bx =>
          ({ bx with box_level := ans.new_box, last_reviewed_at := some now }))) := by
  refine ⟨?_, ?_, ?_, ?_, ?_⟩
  · simp only [submit_leitner_answer, hls, hnone, hq, hbox, hev]
    rw [if_neg (by simp [hlown]), if_neg (by simp [hlopen])]
  · intro hb
    rw [hb, if_pos rfl]
  · intro hb
    rw [hb]
    rfl
  · intro hb h5
    rw [hb, h5, if_pos rfl]
    omega
  · intro ans hmem hnd
    rw [finish_leitner_session_eq db now sid uid lsession hls hlown hlopen]
    show (applyBoxTransitions lsession.classroom_id uid now
      (db.leitner_answers.filter (fun x => x.session_id == sid))
      db.leitner_boxes).find? (boxKey lsession.classroom_id uid ans.question_id) = _
    exact applyBoxTransitions_find lsession.classroom_id uid now _ db.leitner_boxes
      ans hmem hnd

/-- Witness: C3 instantiated on a concrete database where question q5
sits in box 2 and question q6 was already answered correctly from box 2
(stored new_box 3). -/
theorem C3_box_transitions_witness :
    (findLeitnerSession c3Db "ls5" = some c5LSession ∧
      c5LSession.student_id = "stu1" ∧ c5LSession.completed_at = none ∧
      findLeitnerAnswer c3Db "ls5" "q5" = none ∧
      findQuestion c3Db "q5" = some c5Question ∧
      findLeitnerBox c3Db c5LSession.classroom_id "stu1" "q5" =
        some ⟨"cls1", "stu1", "q5", 2, 0, none⟩ ∧
      evaluate_answer c5Question (textPayload "ok") = .ok true) ∧
    (submit_leitner_answer c3Db "ls5" "q5" (textPayload "ok") "stu1" =
      ({ c3Db with leitner_answers := (c3Db.leitner_answers ++
        [⟨"ls5", "q5", true, (⟨"cls1", "stu1", "q5", 2, 0, none⟩ : LeitnerBox).box_level,
          (if true then
            min ((⟨"cls1", "stu1", "q5", 2, 0, none⟩ : LeitnerBox).box_level + 1) 5
          else 1)⟩]) }, .ok true) ∧
    (true = true →
      (if true then
        min ((⟨"cls1", "stu1", "q5", 2, 0, none⟩ : LeitnerBox).box_level + 1) 5
      else 1) =
        min ((⟨"cls1", "stu1", "q5", 2, 0, none⟩ : LeitnerBox).box_level + 1) 5) ∧
    (true = false →
      (if true then
        min ((⟨"cls1", "stu1", "q5", 2, 0, none⟩ : LeitnerBox).box_level + 1) 5
      else 1) = 1) ∧
    (true = true → (⟨"cls1", "stu1", "q5", 2, 0, none⟩ : LeitnerBox).box_level = 5 →
      (if true then
        min ((⟨"cls1", "stu1", "q5", 2, 0, none⟩ : LeitnerBox).box_level + 1) 5
      else 1) = 5) ∧
    (∀ ans, ans ∈ c3Db.leitner_answers.filter (fun x => x.session_id == "ls5") →
      ((c3Db.leitner_answers.filter (fun x => x.session_id == "ls5")).map
        (fun x => x.question_id)).Nodup →
      (finish_leitner_session c3Db 300 "ls5" "stu1").1.leitner_boxes.find?
        (boxKey c5LSession.classroom_id "stu1" ans.question_id) =
      (c3Db.leitner_boxes.find?
        (boxKey c5LSession.classroom_id "stu1" ans.question_id)).map
        (fun bx =>
          ({ bx with box_level := ans.new_box, last_reviewed_at := some 300 })))) :=
  ⟨⟨rfl, rfl, rfl, rfl, rfl, rfl, rfl⟩,
    C3_box_transitions c3Db 300 "ls5" "q5" "stu1" (textPayload "ok") c5LSession
      c5Question ⟨"cls1", "stu1", "q5", 2, 0, none⟩ true rfl rfl rfl rfl rfl rfl rfl⟩

/-- The seeding loop never edits an existing Box Entry row: any row found
before seeding is found unchanged after. -/
theorem seedBoxes_preserves (c s : String) (qs : List Question)
    (boxes : List LeitnerBox) (qid : String) (bx : LeitnerBox)
    (h : boxes.find? (boxKey c s qid) = some bx) :
    (seedBoxes c s qs boxes).find? (boxKey c s qid) = some bx := by
  induction qs generalizing boxes with
  | nil => exact h
  | cons q rest ih =>
    rw [seedBoxes]
    split
    · exact ih boxes h
    · refine ih _ ?_
      rw [List.find?_append, h]
      rfl

/-- A quiz question with no Box Entry at any level is seeded at box
level 1. -/
theorem seedBoxes_seeds (c s : String) (qs : List Question)
    (boxes : List LeitnerBox) (q : Question)
    (hmem : q ∈ qs) (h : boxes.find? (boxKey c s q.id) = none) :
    (seedBoxes c s qs boxes).find? (boxKey c s q.id) =
      some ⟨c, s, q.id, 1, 0, none⟩ := by
  induction qs generalizing boxes with
  | nil => cases hmem
  | cons x rest ih =>
    rw [seedBoxes]
    by_cases hx : (boxes.find? (boxKey c s x.id)).isSome = true
    · rw [if_pos hx]
      rcases List.mem_cons.mp hmem with heq | hmem2
      · rw [← heq] at hx
        rw [h] at hx
        simp at hx
      · exact ih _ hmem2 h
    · rw [if_neg hx]
      by_cases hid : x.id = q.id
      · refine seedBoxes_preserves c s rest _ q.id _ ?_
        rw [List.find?_append, h]
        simp [List.find?_cons, boxKey, hid]
      · rcases List.mem_cons.mp hmem with heq | hmem2
        · exact absurd (congrArg Question.id heq).symm hid
        · refine ih _ hmem2 ?_
          rw [List.find?_append, h]
          simp [List.find?_cons, boxKey, hid]

/-- When every listed question already has a Box Entry, seeding is the
identity on the box table. -/
theorem seedBoxes_id (c s : String) (qs : List Question) (boxes : List LeitnerBox)
    (h : ∀ q ∈ qs, (boxes.find? (boxKey c s q.id)).isSome = true) :
    seedBoxes c s qs boxes = boxes := by
  induction qs with
  | nil => rfl
  | cons x rest ih =>
    rw [seedBoxes, if_pos (h x (List.mem_cons_self x rest))]
    exact ih (fun q hq => h q (List.mem_cons_of_mem x hq))

/-- After one seeding pass every listed question has a Box Entry. -/
theorem seedBoxes_post (c s : String) (qs : List Question) (boxes : List LeitnerBox)
    (q : Question) (hmem : q ∈ qs) :
    ((seedBoxes c s qs boxes).find? (boxKey c s q.id)).isSome = true := by
  rcases hfind : boxes.find? (boxKey c s q.id) with _ | bx
  · rw [seedBoxes_seeds c s qs boxes q hmem hfind]
    rfl
  · rw [seedBoxes_preserves c s qs boxes q.id bx hfind]
    rfl

/-- _check_module_completion written through the two named conditions. -/
theorem check_module_completion_eq (db : Db) (m s : String) :
    check_module_completion db m s =
      (if gatingDone db m s then
        (if modulePresent db s m then db
          else { db with completed_modules := (db.completed_modules ++ [(s, m)]) })
      else db) := rfl

/-- Re-running the module check changes nothing: either the gate still
fails, or the row the first run wrote (or found) is found again. -/
theorem check_module_completion_post (db : Db) (m s : String) :
    check_module_completion (check_module_completion db m s) m s =
      check_module_completion db m s := by
  rw [check_module_completion_eq db m s]
  by_cases hA : gatingDone db m s = true
  · rw [if_pos hA]
    by_cases hB : modulePresent db s m = true
    · rw [if_pos hB, check_module_completion_eq, if_pos hA, if_pos hB]
    · rw [if_neg hB, check_module_completion_eq]
      have hA2 : gatingDone
          { db with completed_modules := (db.completed_modules ++ [(s, m)]) }
          m s = true := hA
      have hB2 : modulePresent
          { db with completed_modules := (db.completed_modules ++ [(s, m)]) }
          s m = true := by
        show ((db.completed_modules ++ [(s, m)]).find?
          (fun c2 => c2.1 == s && c2.2 == m)).isSome = true
        rw [find?_append_last db.completed_modules (s, m)
          (fun c2 => c2.1 == s && c2.2 == m)
          (Option.not_isSome_iff_eq_none.mp hB) (by simp)]
        rfl
      rw [if_pos hA2, if_pos hB2]
  · rw [if_neg hA, check_module_completion_eq, if_neg hA]

/-- complete_quiz's box table is exactly one seeding pass over the quiz's
questions. -/
theorem complete_quiz_boxes (db : Db) (q s c : String) :
    (complete_quiz db q s c).leitner_boxes =
      seedBoxes c s (db.questions.filter (fun x => x.quiz_id == q))
        db.leitner_boxes := by
  simp only [complete_quiz, check_module_completion]
  split <;> split <;> (try split) <;> (try split) <;> simp_all

/-- complete_quiz's quiz-completion table: unchanged when the row exists,
one appended row otherwise. -/
theorem complete_quiz_completed_quizzes (db : Db) (q s c : String) :
    (complete_quiz db q s c).completed_quizzes =
      (if (db.completed_quizzes.find? (fun p => p.1 == s && p.2 == q)).isSome
        then db.completed_quizzes else db.completed_quizzes ++ [(s, q)]) := by
  simp only [complete_quiz, check_module_completion]
  split <;> split <;> (try split) <;> (try split) <;> simp_all

/-- complete_quiz's module-completion table grows by at most one row. -/
theorem complete_quiz_completed_modules (db : Db) (q s c : String) :
    (complete_quiz db q s c).completed_modules = db.completed_modules ∨
    ∃ m, (complete_quiz db q s c).completed_modules =
      db.completed_modules ++ [(s, m)] := by
  simp only [complete_quiz, check_module_completion]
  split <;> split <;> (try split) <;> (try split) <;>
    first
      | exact Or.inl rfl
      | exact Or.inr ⟨_, rfl⟩
      | simp_all

/-- After complete_quiz the (student, quiz) completion row exists. -/
theorem complete_quiz_quiz_recorded (db : Db) (q s c : String) :
    ((complete_quiz db q s c).completed_quizzes.find?
      (fun p => p.1 == s && p.2 == q)).isSome = true := by
  rw [complete_quiz_completed_quizzes]
  by_cases hA : (db.completed_quizzes.find?
      (fun p => p.1 == s && p.2 == q)).isSome = true
  · rw [if_pos hA]
    exact hA
  · rw [if_neg hA, find?_append_last db.completed_quizzes (s, q)
      (fun p => p.1 == s && p.2 == q) (Option.not_isSome_iff_eq_none.mp hA) (by simp)]
    rfl

/-- Re-checking the module after complete_quiz already ran is a no-op
(the first run either saw the gate fail or left the row present). -/
theorem complete_quiz_check_stable (db : Db) (q s c : String) (quiz : Quiz)
    (hfind : db.quizzes.find? (fun x => x.id == q) = some quiz) :
    check_module_completion (complete_quiz db q s c) quiz.module_id s =
      complete_quiz db q s c := by
  by_cases hA : (db.completed_quizzes.find?
      (fun p => p.1 == s && p.2 == q)).isSome = true
  · have hstep : complete_quiz db q s c =
        check_module_completion
          { db with leitner_boxes := (seedBoxes c s
            (db.questions.filter (fun x => x.quiz_id == q)) db.leitner_boxes) }
          quiz.module_id s := by
      simp [complete_quiz, hA, hfind]
    rw [hstep, check_module_completion_post]
  · have hstep : complete_quiz db q s c =
        check_module_completion
          { db with
            completed_quizzes := (db.completed_quizzes ++ [(s, q)]),
            leitner_boxes := (seedBoxes c s
              (db.questions.filter (fun x => x.quiz_id == q)) db.leitner_boxes) }
          quiz.module_id s := by
      simp [complete_quiz, hA, hfind]
    rw [hstep, check_module_completion_post]

/-- A database on which complete_quiz finds nothing left to do is a fixed
point. -/
theorem complete_quiz_fixed (db : Db) (q s c : String)
    (h1 : ((db.completed_quizzes.find?
      (fun p => p.1 == s && p.2 == q)).isSome) = true)
    (h2 : seedBoxes c s (db.questions.filter (fun x => x.quiz_id == q))
      db.leitner_boxes = db.leitner_boxes)
    (h3 : ∀ quiz, db.quizzes.find? (fun x => x.id == q) = some quiz →
      check_module_completion db quiz.module_id s = db) :
    complete_quiz db q s c = db := by
  simp only [complete_quiz]
  rw [if_pos h1, h2]
  rw [show ({ db with leitner_boxes := db.leitner_boxes } : Db) = db from rfl]
  rcases hfind : db.quizzes.find? (fun x => x.id == q) with _ | quiz
  · rw [hfind]
  · rw [hfind]
    exact h3 quiz hfind

/-- Running complete_quiz twice equals running it once. -/
theorem complete_quiz_idem (db : Db) (q s c : String) :
    complete_quiz (complete_quiz db q s c) q s c = complete_quiz db q s c := by
  refine complete_quiz_fixed (complete_quiz db q s c) q s c
    (complete_quiz_quiz_recorded db q s c) ?_ ?_
  · rw [show (complete_quiz db q s c).questions = db.questions from
      (complete_quiz_frame db q s c).2.2.1]
    rw [complete_quiz_boxes db q s c]
    exact seedBoxes_id c s _ _
      (fun q2 hq2 => seedBoxes_post c s _ db.leitner_boxes q2 hq2)
  · intro quiz hfind
    rw [show (complete_quiz db q s c).quizzes = db.quizzes from
      (complete_quiz_frame db q s c).2.2.2.1] at hfind
    exact complete_quiz_check_stable db q s c quiz hfind

/-- C7: passing the same quiz twice (same student) is idempotent in its
side effects: complete_quiz is literally idempotent on the state, the
(student, quiz) completion row count goes from 0 to 1 and stays at 1, an
existing Box Entry (at any level, e.g. promoted past 1) is never touched,
a quiz question with no Box Entry is seeded at box level 1, and at most
one module-completion row is ever added. -/
theorem C7_double_pass_idempotent (db : Db) (quiz_id student_id classroom_id : String) :
    complete_quiz (complete_quiz db quiz_id student_id classroom_id)
        quiz_id student_id classroom_id =
      complete_quiz db quiz_id student_id classroom_id ∧
    (countCompletedQuiz db student_id quiz_id = 0 →
      countCompletedQuiz (complete_quiz db quiz_id student_id classroom_id)
        student_id quiz_id = 1 ∧
      countCompletedQuiz (complete_quiz
          (complete_quiz db quiz_id student_id classroom_id)
          quiz_id student_id classroom_id) student_id quiz_id = 1) ∧
    (∀ qid bx, findLeitnerBox db classroom_id student_id qid = some bx →
      findLeitnerBox (complete_quiz db quiz_id student_id classroom_id)
        classroom_id student_id qid = some bx) ∧
    (∀ question, question ∈ db.questions.filter (fun x => x.quiz_id == quiz_id) →
      findLeitnerBox db classroom_id student_id question.id = none →
      findLeitnerBox (complete_quiz db quiz_id student_id classroom_id)
        classroom_id student_id question.id =
        some ⟨classroom_id, student_id, question.id, 1, 0, none⟩) ∧
    (∀ module_id, countCompletedModule db student_id module_id = 0 →
      countCompletedModule (complete_quiz db quiz_id student_id classroom_id)
        student_id module_id ≤ 1) := by
  refine ⟨complete_quiz_idem db quiz_id student_id classroom_id, ?_, ?_, ?_, ?_⟩
  · intro h0
    have h0' : (db.completed_quizzes.filter
        (fun p => p.1 == student_id && p.2 == quiz_id)).length = 0 := h0
    have hfil : db.completed_quizzes.filter
        (fun p => p.1 == student_id && p.2 == quiz_id) = [] :=
      List.length_eq_zero.mp h0'
    have hnone : db.completed_quizzes.find?
        (fun p => p.1 == student_id && p.2 == quiz_id) = none := by
      rw [List.find?_eq_none]
      intro x hx hpx
      have hin : x ∈ db.completed_quizzes.filter
          (fun p => p.1 == student_id && p.2 == quiz_id) :=
        List.mem_filter.mpr ⟨hx, hpx⟩
      rw [hfil] at hin
      cases hin
    have h1 : countCompletedQuiz
        (complete_quiz db quiz_id student_id classroom_id) student_id quiz_id = 1 := by
      show ((complete_quiz db quiz_id student_id classroom_id).completed_quizzes.filter
        (fun p => p.1 == student_id && p.2 == quiz_id)).length = 1
      rw [complete_quiz_completed_quizzes, if_neg (by rw [hnone]; simp),
        List.filter_append, List.length_append, hfil]
      simp
    exact ⟨h1, by rw [complete_quiz_idem]; exact h1⟩
  · intro qid bx hbx
    show (complete_quiz db quiz_id student_id classroom_id).leitner_boxes.find?
      (boxKey classroom_id student_id qid) = some bx
    rw [complete_quiz_boxes]
    exact seedBoxes_preserves classroom_id student_id _ db.leitner_boxes qid bx hbx
  · intro question hmem hnone
    show (complete_quiz db quiz_id student_id classroom_id).leitner_boxes.find?
      (boxKey classroom_id student_id question.id) =
      some ⟨classroom_id, student_id, question.id, 1, 0, none⟩
    rw [complete_quiz_boxes]
    exact seedBoxes_seeds classroom_id student_id _ db.leitner_boxes question hmem hnone
  · intro m h0
    simp only [countCompletedModule] at h0 ⊢
    rcases complete_quiz_completed_modules db quiz_id student_id classroom_id with
      heq | ⟨m2, heq⟩
    · rw [heq, h0]
      omega
    · rw [heq, List.filter_append, List.length_append, h0]
      simpa using List.length_filter_le _ [(student_id, m2)]

/-- Witness: C7 instantiated on a concrete database where the student has
no completion rows, q7 is unboxed and q8 sits promoted in box 4. -/
theorem C7_double_pass_idempotent_witness :
    complete_quiz (complete_quiz c7Db "qz7" "stu1" "cls1") "qz7" "stu1" "cls1" =
      complete_quiz c7Db "qz7" "stu1" "cls1" ∧
    (countCompletedQuiz c7Db "stu1" "qz7" = 0 ∧
      countCompletedQuiz (complete_quiz c7Db "qz7" "stu1" "cls1") "stu1" "qz7" = 1 ∧
      countCompletedQuiz (complete_quiz (complete_quiz c7Db "qz7" "stu1" "cls1")
        "qz7" "stu1" "cls1") "stu1" "qz7" = 1) ∧
    (findLeitnerBox c7Db "cls1" "stu1" "q8" =
        some ⟨"cls1", "stu1", "q8", 4, 0, none⟩ ∧
      findLeitnerBox (complete_quiz c7Db "qz7" "stu1" "cls1") "cls1" "stu1" "q8" =
        some ⟨"cls1", "stu1", "q8", 4, 0, none⟩) ∧
    (c7Question ∈ c7Db.questions.filter (fun x => x.quiz_id == "qz7") ∧
      findLeitnerBox c7Db "cls1" "stu1" c7Question.id = none ∧
      findLeitnerBox (complete_quiz c7Db "qz7" "stu1" "cls1") "cls1" "stu1"
        c7Question.id = some ⟨"cls1", "stu1", c7Question.id, 1, 0, none⟩) ∧
    (countCompletedModule c7Db "stu1" "m7" = 0 ∧
      countCompletedModule (complete_quiz c7Db "qz7" "stu1" "cls1") "stu1" "m7" ≤ 1) := by
  have h := C7_double_pass_idempotent c7Db "qz7" "stu1" "cls1"
  refine ⟨h.1, ⟨by decide, (h.2.1 (by decide)).1, (h.2.1 (by decide)).2⟩,
    ⟨by decide, h.2.2.1 "q8" ⟨"cls1", "stu1", "q8", 4, 0, none⟩ (by decide)⟩,
    ⟨by decide, by decide, h.2.2.2.1 c7Question (by decide) (by decide)⟩,
    ⟨by decide, h.2.2.2.2 "m7" (by decide)⟩⟩

end Proto
